import Mathlib

/-!
Verification development for the LetRecovery repository (Windows deployment
tool with a normal-OS side and a WinPE side).  The Rust sources are shallowly
embedded: external processes and OS calls are abstracted as outcome
environments, and the orchestration / parsing logic is translated function by
function.  Text is modelled as `List Char` (Rust `String` operations restricted
to the ASCII fragment actually exercised) or as `List Nat` of code points for
the UTF-16 WIM metadata path.
-/

namespace LetRecovery

/-! ## Generic sequence utilities (models of Rust `str`/slice operations) -/

/-- Boolean prefix test, model of Rust `starts_with` on slices. -/
def isPrefixOfSeq {α : Type} [DecidableEq α] : List α → List α → Bool
  | [], _ => true
  | _ :: _, [] => false
  | a :: as, b :: bs => a = b && isPrefixOfSeq as bs

/-- Index of the first occurrence of `pat` in `xs`, model of Rust `str::find`
for a nonempty pattern (`find` of an empty pattern returns 0, matched here). -/
def findSub {α : Type} [DecidableEq α] (pat : List α) : List α → Option Nat
  | [] => if pat = [] then some 0 else none
  | x :: xs =>
    if isPrefixOfSeq pat (x :: xs) then some 0
    else (findSub pat xs).map (· + 1)

/-- Model of Rust `str::contains`. -/
def containsSub {α : Type} [DecidableEq α] (pat xs : List α) : Bool :=
  (findSub pat xs).isSome

/-- Number of (possibly overlapping) occurrences of `pat` in `xs`
(tail-recursive so that concrete instances evaluate in constant stack). -/
def countSubAux {α : Type} [DecidableEq α] (pat : List α) : List α → Nat → Nat
  | [], acc => acc
  | x :: xs, acc =>
    countSubAux pat xs (if isPrefixOfSeq pat (x :: xs) then acc + 1 else acc)

def countSub {α : Type} [DecidableEq α] (pat xs : List α) : Nat :=
  countSubAux pat xs 0

/-- Model of Rust `str::ends_with`. -/
def endsWithSeq {α : Type} [DecidableEq α] (xs suffix : List α) : Bool :=
  isPrefixOfSeq suffix.reverse xs.reverse

/-- Split on a separator element, model of Rust `str::split(c)`. -/
def splitOnSep {α : Type} [DecidableEq α] (sep : α) : List α → List (List α)
  | [] => [[]]
  | x :: xs =>
    let rest := splitOnSep sep xs
    if x = sep then [] :: rest
    else match rest with
      | [] => [[x]]
      | r :: rs => (x :: r) :: rs

/-- ASCII whitespace predicate (fragment of Rust `char::is_whitespace` that the
embedded texts use). -/
def isAsciiWs (c : Char) : Bool :=
  c = ' ' || c = '\t' || c = '\n' || c = '\r'

/-- Model of Rust `str::trim` on the ASCII fragment. -/
def trimChars (s : List Char) : List Char :=
  (s.dropWhile isAsciiWs).reverse.dropWhile isAsciiWs |>.reverse

/-- Model of Rust `str::split_whitespace` (ASCII fragment): split on runs of
whitespace, dropping empty tokens. -/
def splitWs : List Char → List (List Char)
  | [] => []
  | c :: cs =>
    if isAsciiWs c then splitWs cs
    else
      match splitWs cs with
      | [] => [[c]]
      | t :: ts =>
        match cs with
        | [] => [[c]]
        | c2 :: _ => if isAsciiWs c2 then [c] :: (t :: ts) else (c :: t) :: ts

/-- ASCII uppercase of one character (fragment of Rust `str::to_uppercase`;
non-ASCII characters, e.g. the Chinese keywords, are unchanged by both). -/
def asciiUpperChar (c : Char) : Char :=
  if 'a' ≤ c && c ≤ 'z' then Char.ofNat (c.toNat - 32) else c

/-- ASCII lowercase of one character (fragment of Rust `str::to_lowercase`). -/
def asciiLowerChar (c : Char) : Char :=
  if 'A' ≤ c && c ≤ 'Z' then Char.ofNat (c.toNat + 32) else c

def asciiUpper (s : List Char) : List Char := s.map asciiUpperChar

def asciiLower (s : List Char) : List Char := s.map asciiLowerChar

def digitVal (c : Char) : Nat := c.toNat - 48

def isDigitChar (c : Char) : Bool := '0' ≤ c && c ≤ '9'

/-- Model of Rust `str::parse::<uN>()`: optional leading `+`, then decimal
digits, rejecting the empty string and values outside `[0, bound)`. -/
def parseUNat (bound : Nat) (s : List Char) : Option Nat :=
  let digits := if s.head? = some '+' then s.tail else s
  if digits = [] then none
  else if digits.all isDigitChar then
    let v := digits.foldl (fun acc c => acc * 10 + digitVal c) 0
    if v < bound then some v else none
  else none

/-- Rust `str::parse::<u32>()`. -/
def parseU32 (s : List Char) : Option Nat := parseUNat (2 ^ 32) s

/-- Rust `str::parse::<u64>()`. -/
def parseU64 (s : List Char) : Option Nat := parseUNat (2 ^ 64) s

/-- Model of Rust `str::lines`: split on `'\n'`, drop one trailing empty line,
strip a trailing `'\r'` from each line. -/
def rustLines (s : List Char) : List (List Char) :=
  if s = [] then []
  else
    let parts := splitOnSep '\n' s
    let parts := if parts.getLast? = some [] then parts.dropLast else parts
    parts.map fun l =>
      if l.getLast? = some '\r' then l.dropLast else l

/-! ## Offline registry: `PE端/src/core/registry.rs`, `OfflineRegistry::unload_hive`

The external call `reg.exe unload` is abstracted as `outcome n`, the exit-status
success of the n-th attempt (0-based; the 500 ms sleep between attempts has no
observable effect in this model).  The source tries 5 times in a loop, then
makes one final attempt whose failure becomes the returned error. -/

/-- The retry loop `for attempt in 0..5`: true iff some attempt in
`[attempt, attempt+remaining)` succeeds. -/
def unload_hive_loop (outcome : Nat → Bool) (attempt : Nat) : Nat → Bool
  | 0 => false
  | r + 1 => outcome attempt || unload_hive_loop outcome (attempt + 1) r

/-- `OfflineRegistry::unload_hive`, with the reg.exe exit statuses given by
`outcome`. -/
def unload_hive (outcome : Nat → Bool) : Except String Unit :=
  if unload_hive_loop outcome 0 5 then .ok ()
  else if outcome 5 then .ok ()
  else .error "卸载注册表配置单元失败"

/-! ## Format partition: both `DiskManager::format_partition` variants

`正常系统端/src/core/disk.rs` returns `Ok(stdout)` whenever the process could
be spawned, ignoring the exit status; `PE端/src/core/disk.rs` additionally
fails on a non-zero exit status.  A completed process is modelled by its
decoded stdout/stderr and exit-status success; `spawn = .error e` models a
spawn/I-O failure of `.output()`. -/

deriving instance DecidableEq for Except

structure ProcOutput where
  success : Bool
  stdout : String
  stderr : String
  deriving DecidableEq, Repr

/-- Normal-OS side `DiskManager::format_partition` (the choice of format.com
path does not affect the result structure). -/
def normal_format_partition (spawn : Except String ProcOutput) : Except String String :=
  match spawn with
  | .error e => .error e
  | .ok output => .ok output.stdout

/-- PE side `DiskManager::format_partition`. -/
def pe_format_partition (spawn : Except String ProcOutput) : Except String String :=
  match spawn with
  | .error e => .error e
  | .ok output =>
    if output.success then .ok output.stdout
    else .error ("格式化失败: " ++ output.stderr)

/-! ## Workflow orchestrators

`PE端/src/app.rs` (`execute_install_workflow`, `execute_backup_workflow`) and
the normal-OS direct-install thread
(`正常系统端/src/ui/install_progress.rs`, `start_direct_install_thread`).

Each workflow runs on one background thread and emits messages over a channel;
the trace of messages sent by that thread (interleaved with markers for the
external operations it invokes) is the observable behaviour modelled here.
The progress-relay threads only forward imaging-engine percentages and are not
part of the orchestration trace.  External components that live outside
`src/` (`ConfigFileManager`, `BootManager`, `Ghost`, the wimgapi engine) are
abstracted as outcome fields of an environment record. -/

inductive InstallStep
  | FormatPartition | ApplyImage | ImportDrivers | RepairBoot
  | ApplyAdvancedOptions | GenerateUnattend | Cleanup | Complete
  deriving DecidableEq, Repr

inductive BackupStep
  | ReadConfig | CaptureImage | VerifyBackup | RepairBoot | Cleanup | Complete
  deriving DecidableEq, Repr

/-- External operations invoked by the orchestrators (recorded in the trace so
that "step X was executed" is observable). -/
inductive OpCall
  | formatPartition | ghostRestore | dismApply | addDriversOffline
  | repairBootAdvanced | applyAdvancedOptions | generateUnattend | cleanupAll
  | captureImage | appendImage | deleteCurrentBootEntry | cleanupMarkers
  | exportDrivers | importDrivers
  deriving DecidableEq, Repr

/-- `WorkerMessage` from `PE端/src/app.rs`. -/
inductive WorkerMessage
  | SetInstallStep (s : InstallStep)
  | SetBackupStep (s : BackupStep)
  | SetProgress (p : Nat)
  | SetStatus (s : String)
  | Completed
  | Failed (msg : String)
  deriving DecidableEq, Repr

/-- An event of a PE workflow trace: a message sent to the UI channel or an
invocation of an external operation. -/
inductive Ev
  | msg (m : WorkerMessage)
  | op (o : OpCall)
  deriving DecidableEq, Repr

/-- `InstallConfig` (fields as constructed in
`正常系统端/src/ui/install_progress.rs` and consumed in `PE端/src/app.rs` and
`PE端/src/ui/advanced_options.rs`; `core/config.rs` itself is not under
`src/`). -/
structure InstallConfig where
  unattended : Bool
  restore_drivers : Bool
  auto_reboot : Bool
  volume_index : Nat
  target_partition : String
  image_path : String
  is_gho : Bool
  remove_shortcut_arrow : Bool
  restore_classic_context_menu : Bool
  bypass_nro : Bool
  disable_windows_update : Bool
  disable_windows_defender : Bool
  disable_reserved_storage : Bool
  disable_uac : Bool
  disable_device_encryption : Bool
  remove_uwp_apps : Bool
  import_storage_controller_drivers : Bool
  custom_username : String
  deriving DecidableEq, Repr

/-- `BackupConfig` (fields as consumed in `execute_backup_workflow`). -/
structure BackupConfig where
  source_partition : String
  save_path : String
  name : String
  description : String
  incremental : Bool
  deriving DecidableEq, Repr

/-- Outcome environment for the PE install workflow: results of the external
collaborators, in the order the workflow consults them. -/
structure PEInstallEnv where
  find_data_partition : Option String
  data_dir : String
  read_install_config : Except String InstallConfig
  find_install_marker_partition : Option String
  image_file_exists : Bool
  format_result : Except String String
  ghost_available : Bool
  ghost_restore_result : Except String Unit
  apply_image_result : Except String Unit
  driver_dir_exists : Bool
  add_drivers_result : Except String Unit
  repair_boot_result : Except String Unit
  apply_advanced_result : Except String Unit
  generate_unattend_result : Except String Unit

/-- `execute_install_workflow` (`PE端/src/app.rs`): the trace of UI messages
and external invocations of the worker thread. -/
def execute_install_workflow (env : PEInstallEnv) : List Ev :=
  match env.find_data_partition with
  | none => [.msg (.Failed "未找到安装配置文件")]
  | some data_partition =>
    [Ev.msg (.SetStatus ("数据分区: " ++ data_partition))] ++
    match env.read_install_config with
    | .error e => [.msg (.Failed ("读取配置失败: " ++ e))]
    | .ok config =>
      let _target_partition :=
        (env.find_install_marker_partition).getD config.target_partition
      let image_path := env.data_dir ++ "\\" ++ config.image_path
      if !env.image_file_exists then
        [.msg (.Failed ("镜像文件不存在: " ++ image_path))]
      else
        [Ev.msg (.SetInstallStep .FormatPartition),
         .msg (.SetStatus "正在格式化目标分区..."),
         .op .formatPartition] ++
        match env.format_result with
        | .error e => [.msg (.Failed ("格式化分区失败: " ++ e))]
        | .ok _ =>
          [Ev.msg (.SetProgress 100),
           .msg (.SetInstallStep .ApplyImage),
           .msg (.SetStatus "正在释放系统镜像...")] ++
          if config.is_gho && !env.ghost_available then
            [.msg (.Failed "Ghost工具不可用")]
          else
            [(if config.is_gho then Ev.op .ghostRestore else Ev.op .dismApply)] ++
            match (if config.is_gho then env.ghost_restore_result
                   else env.apply_image_result) with
            | .error e => [.msg (.Failed ("释放镜像失败: " ++ e))]
            | .ok _ =>
              [Ev.msg (.SetProgress 100),
               .msg (.SetInstallStep .ImportDrivers)] ++
              (if config.restore_drivers then
                [Ev.msg (.SetStatus "正在导入驱动...")] ++
                (if env.driver_dir_exists then [Ev.op .addDriversOffline] else [])
               else [Ev.msg (.SetStatus "跳过驱动导入")]) ++
              [Ev.msg (.SetProgress 100),
               .msg (.SetInstallStep .RepairBoot),
               .msg (.SetStatus "正在修复引导..."),
               .op .repairBootAdvanced] ++
              match env.repair_boot_result with
              | .error e => [.msg (.Failed ("修复引导失败: " ++ e))]
              | .ok _ =>
                [Ev.msg (.SetProgress 100),
                 .msg (.SetInstallStep .ApplyAdvancedOptions),
                 .msg (.SetStatus "正在应用高级选项..."),
                 .op .applyAdvancedOptions,
                 .msg (.SetProgress 100),
                 .msg (.SetInstallStep .GenerateUnattend)] ++
                (if config.unattended then
                  [Ev.msg (.SetStatus "正在生成无人值守配置..."),
                   .op .generateUnattend]
                 else [Ev.msg (.SetStatus "跳过无人值守配置")]) ++
                [Ev.msg (.SetProgress 100),
                 .msg (.SetInstallStep .Cleanup),
                 .msg (.SetStatus "正在清理临时文件..."),
                 .op .cleanupAll,
                 .msg (.SetProgress 100),
                 .msg (.SetInstallStep .Complete),
                 .msg .Completed]

/-- Outcome environment for the PE backup workflow.  `save_path_exists_before`
is the routing check made before capture; `save_path_exists_after` is the
verification check made after it. -/
structure PEBackupEnv where
  find_data_partition : Option String
  read_backup_config : Except String BackupConfig
  find_backup_marker_partition : Option String
  save_path_exists_before : Bool
  append_result : Except String Unit
  capture_result : Except String Unit
  save_path_exists_after : Bool

/-- `execute_backup_workflow` (`PE端/src/app.rs`). -/
def execute_backup_workflow (env : PEBackupEnv) : List Ev :=
  match env.find_data_partition with
  | none => [.msg (.Failed "未找到备份配置文件")]
  | some _data_partition =>
    [Ev.msg (.SetBackupStep .ReadConfig),
     .msg (.SetStatus "正在读取备份配置...")] ++
    match env.read_backup_config with
    | .error e => [.msg (.Failed ("读取配置失败: " ++ e))]
    | .ok config =>
      let _source_partition :=
        (env.find_backup_marker_partition).getD config.source_partition
      [Ev.msg (.SetProgress 100),
       .msg (.SetBackupStep .CaptureImage),
       .msg (.SetStatus "正在执行系统备份...")] ++
      [(if config.incremental && env.save_path_exists_before
        then Ev.op .appendImage else Ev.op .captureImage)] ++
      match (if config.incremental && env.save_path_exists_before
             then env.append_result else env.capture_result) with
      | .error e => [.msg (.Failed ("备份失败: " ++ e))]
      | .ok _ =>
        [Ev.msg (.SetProgress 100),
         .msg (.SetBackupStep .VerifyBackup),
         .msg (.SetStatus "正在验证备份文件...")] ++
        if !env.save_path_exists_after then
          [.msg (.Failed "备份文件验证失败")]
        else
          [Ev.msg (.SetProgress 100),
           .msg (.SetBackupStep .RepairBoot),
           .msg (.SetStatus "正在恢复引导..."),
           .op .deleteCurrentBootEntry,
           .msg (.SetProgress 100),
           .msg (.SetBackupStep .Cleanup),
           .msg (.SetStatus "正在清理临时文件..."),
           .op .cleanupMarkers,
           .msg (.SetProgress 100),
           .msg (.SetBackupStep .Complete),
           .msg .Completed]

/-! ### Normal-OS direct-install thread -/

inductive BootModeSelection
  | Auto | UEFI | Legacy
  deriving DecidableEq, Repr

/-- `InstallOptions` (`正常系统端/src/app.rs`; the nested advanced options and
driver action do not influence the direct-install thread's control flow). -/
structure InstallOptions where
  format_partition : Bool
  repair_boot : Bool
  unattended_install : Bool
  export_drivers : Bool
  auto_reboot : Bool
  boot_mode : BootModeSelection
  deriving DecidableEq, Repr

inductive PartitionStyle
  | GPT | MBR | Unknown
  deriving DecidableEq, Repr

/-- An event of the normal-OS direct-install thread: a `send_step` progress
message (step number, step name, percent) or an external invocation. -/
inductive NEv
  | sendStep (n : Nat) (name : String) (pct : Nat)
  | op (o : OpCall)
  deriving DecidableEq, Repr

/-- Outcomes of the external operations the direct-install thread performs. -/
structure DirectEnv where
  format_result : Except String Unit
  export_result : Except String Unit
  ghost_available : Bool
  ghost_restore_result : Except String Unit
  apply_image_result : Except String Unit
  driver_backup_exists : Bool
  import_result : Except String Unit
  repair_result : Except String Unit
  advanced_result : Except String Unit
  unattend_result : Except String Unit

/-- `start_direct_install_thread` (`正常系统端/src/ui/install_progress.rs`):
the trace of the spawned worker thread.  Every external failure in this thread
is only printed to the log; none aborts the sequence.  `partition_style` is
the style of the target partition resolved before the thread starts. -/
def start_direct_install_thread (env : DirectEnv) (options : InstallOptions)
    (image_path : String) (partition_style : PartitionStyle) : List NEv :=
  -- Step 1: format partition
  [NEv.sendStep 1 "格式化分区" 0] ++
  (if options.format_partition then
    [NEv.sendStep 1 "格式化分区" 30, .op .formatPartition,
     .sendStep 1 "格式化分区" 100]
   else [NEv.sendStep 1 "格式化分区" 100]) ++
  -- Step 2: export drivers (failure logged, continues)
  [NEv.sendStep 2 "导出驱动" 0] ++
  (if options.export_drivers then
    [NEv.sendStep 2 "导出驱动" 20, .op .exportDrivers, .sendStep 2 "导出驱动" 100]
   else [NEv.sendStep 2 "导出驱动" 100]) ++
  -- Step 3: apply image (GHO via Ghost, WIM/ESD via DISM; failure logged)
  [NEv.sendStep 3 "释放系统镜像" 0] ++
  (let image_lower := asciiLower image_path.data
   let is_gho := endsWithSeq image_lower ".gho".data
     || endsWithSeq image_lower ".ghs".data
   if is_gho then
     (if !env.ghost_available then
       [NEv.sendStep 3 "释放系统镜像" 100]
      else [NEv.op .ghostRestore]) ++
     [NEv.sendStep 3 "释放系统镜像" 100]
   else
     [NEv.op .dismApply, .sendStep 3 "释放系统镜像" 100]) ++
  -- Step 4: import drivers (failure logged)
  [NEv.sendStep 4 "导入驱动" 0] ++
  (if options.export_drivers && env.driver_backup_exists then
    [NEv.sendStep 4 "导入驱动" 30, .op .importDrivers, .sendStep 4 "导入驱动" 100]
   else [NEv.sendStep 4 "导入驱动" 100]) ++
  -- Step 5: repair boot (failure logged)
  [NEv.sendStep 5 "修复引导" 0] ++
  (if options.repair_boot then
    let _use_uefi := match options.boot_mode with
      | .UEFI => true
      | .Legacy => false
      | .Auto => partition_style = PartitionStyle.GPT
    [NEv.sendStep 5 "修复引导" 20, .sendStep 5 "修复引导" 50,
     .op .repairBootAdvanced, .sendStep 5 "修复引导" 100]
   else [NEv.sendStep 5 "修复引导" 100]) ++
  -- Step 6: advanced options + optional unattend (failures logged)
  [NEv.sendStep 6 "应用高级选项" 0, .sendStep 6 "应用高级选项" 20,
   .op .applyAdvancedOptions, .sendStep 6 "应用高级选项" 50] ++
  (if options.unattended_install then [NEv.op .generateUnattend] else []) ++
  [NEv.sendStep 6 "应用高级选项" 100] ++
  -- Step 7: done
  [NEv.sendStep 7 "完成安装" 100]

/-! ## Advanced options — offline registry session
(`PE端/src/ui/advanced_options.rs`, `apply_advanced_options`)

The observable resource behaviour is the sequence of hive load/unload calls
(`reg.exe load`/`reg.exe unload`); the per-flag `set_dword`/`set_string`/
`create_key` mutations have their results discarded with `let _ =` in the
source, so they can neither fail the routine nor touch the hive mounts and are
not recorded.  The fallible filesystem calls (`create_dir_all`, `fs::write`)
use `?` in the source and are modelled as environment outcomes.  The
normal-OS-side `AdvancedOptions::apply_to_system` has the same load / early
`?`-exit / final-unload structure. -/

inductive RegEv
  | load (hive : String) (ok : Bool)
  | unload (hive : String)
  deriving DecidableEq, Repr

/-- Outcomes of the external calls made by `apply_advanced_options`. -/
structure AdvEnv where
  load_soft : Bool
  load_sys : Bool
  load_default : Bool
  create_scripts_dir : Bool
  write_uwp_script : Bool
  storage_drivers_dir_exists : Bool
  add_drivers_result : Except String Unit
  reload_soft : Bool
  reload_sys : Bool
  reload_default : Bool
  write_username : Bool

/-- `apply_advanced_options`: returns the routine's result together with the
trace of hive load/unload events, in source order. -/
def apply_advanced_options (env : AdvEnv) (config : InstallConfig) :
    Except String Unit × List RegEv :=
  -- OfflineRegistry::load_hive("pc-soft", ...)?
  let t := [RegEv.load "pc-soft" env.load_soft]
  if !env.load_soft then (.error "加载注册表配置单元失败", t) else
  -- OfflineRegistry::load_hive("pc-sys", ...)?
  let t := t ++ [RegEv.load "pc-sys" env.load_sys]
  if !env.load_sys then (.error "加载注册表配置单元失败", t) else
  -- DEFAULT hive load failure is tolerated
  let default_loaded := env.load_default
  let t := t ++ [RegEv.load "pc-default" env.load_default]
  -- std::fs::create_dir_all(&scripts_dir)?
  if !env.create_scripts_dir then (.error "创建脚本目录失败", t) else
  -- flags 1-8: `let _ =` registry mutations (results ignored, no hive events)
  -- flag 9: UWP removal script, std::fs::write(...)?
  if config.remove_uwp_apps && !env.write_uwp_script then
    (.error "写入脚本失败", t)
  else
  -- flag 10: storage-controller driver import (unload, DISM, reload)
  let t := t ++
    (if config.import_storage_controller_drivers
        && env.storage_drivers_dir_exists then
      [RegEv.unload "pc-soft", RegEv.unload "pc-sys"] ++
      (if default_loaded then [RegEv.unload "pc-default"] else []) ++
      [RegEv.load "pc-soft" env.reload_soft,
       RegEv.load "pc-sys" env.reload_sys] ++
      (if default_loaded then [RegEv.load "pc-default" env.reload_default]
       else [])
     else [])
  -- flag 11: custom username marker file, std::fs::write(...)?
  if config.custom_username ≠ "" && !env.write_username then
    (.error "写入用户名失败", t)
  else
  -- final unloads (results discarded)
  let t := t ++ [RegEv.unload "pc-soft", RegEv.unload "pc-sys"] ++
    (if default_loaded then [RegEv.unload "pc-default"] else [])
  (.ok (), t)

/-- A trace pairs loads with unloads when every hive that was loaded
successfully at some point has at least one unload attempted. -/
def pairedOnExit (tr : List RegEv) : Prop :=
  ∀ h : String, RegEv.load h true ∈ tr → RegEv.unload h ∈ tr

/-- Executable check for `pairedOnExit`. -/
def pairedOnExitB (tr : List RegEv) : Bool :=
  tr.all fun e =>
    match e with
    | RegEv.load h true => tr.contains (RegEv.unload h)
    | _ => true

theorem pairedOnExit_iff (tr : List RegEv) :
    pairedOnExit tr ↔ pairedOnExitB tr = true := by
  unfold pairedOnExit pairedOnExitB
  rw [List.all_eq_true]
  constructor
  · intro hall e he
    match e with
    | RegEv.load h true =>
      simpa [List.contains] using
        List.elem_iff.mpr (hall h he)
    | RegEv.load _ false => rfl
    | RegEv.unload _ => rfl
  · intro hall h hm
    have := hall _ hm
    simpa [List.contains, List.elem_iff] using this

instance (tr : List RegEv) : Decidable (pairedOnExit tr) :=
  decidable_of_iff _ (pairedOnExit_iff tr).symm

/-! ## Installable-image filter
(`正常系统端/src/ui/system_install.rs`, `is_installable_image` and the
filter in `show_system_install`) -/

/-- `ImageInfo` as used by the volume filter (`index`/`size` do not influence
it; `major_version` omitted likewise). -/
structure UiImageInfo where
  index : Nat
  name : String
  installation_type : String
  deriving DecidableEq, Repr

/-- `is_installable_image`. -/
def is_installable_image (vol : UiImageInfo) : Bool :=
  let name_lower := asciiLower vol.name.data
  let install_type_lower := asciiLower vol.installation_type.data
  -- 1. exclude installation_type == "windowspe"
  if install_type_lower = "windowspe".data then false
  else
  -- 2. exclude names containing PE/setup keywords
  if containsSub "windows pe".data name_lower
      || containsSub "windows setup".data name_lower
      || containsSub "setup media".data name_lower
      || containsSub "winpe".data name_lower then false
  else
  -- 3. empty installation_type: name must carry a system identifier
  if vol.installation_type = "" &&
      !(containsSub "windows 10".data name_lower
        || containsSub "windows 11".data name_lower
        || containsSub "windows server".data name_lower
        || containsSub "windows 8".data name_lower
        || containsSub "windows 7".data name_lower) then false
  else
  -- 4./5. Client/Server and the remaining cases pass
  true

/-- The filtered installable list of `show_system_install`:
`image_volumes.iter().enumerate().filter(is_installable_image)`. -/
def installable_volumes (image_volumes : List UiImageInfo) :
    List (Nat × UiImageInfo) :=
  image_volumes.enum.filter fun p => is_installable_image p.2

/-! ## Partition enumeration (`PE端/src/core/disk.rs`, `DiskManager`)

`get_partitions` walks the fixed drive letters `A..=Z`; each OS query is
abstracted as a field of a per-drive environment.  `ps_output` /
`diskpart_*_output` are the decoded stdout of the external commands, `none`
modelling a failed spawn.  The normal-OS-side module differs only in the
`is_system_partition` rule (an `is_pe` parameter). -/

structure Partition where
  letter : String
  total_size_mb : Nat
  free_size_mb : Nat
  label : String
  is_system_partition : Bool
  has_windows : Bool
  partition_style : PartitionStyle
  disk_number : Option Nat
  partition_number : Option Nat
  deriving DecidableEq, Repr

structure PartitionDetail where
  style : PartitionStyle
  disk_number : Option Nat
  partition_number : Option Nat
  deriving DecidableEq, Repr

/-- Per-drive outcomes of the OS queries made for one drive letter. -/
structure DriveEnv where
  drive_type : Nat
  /-- `GetDiskFreeSpaceExW` result: `(free_bytes_available, total_bytes)`,
  `none` = call failed (the `?` aborts the drive's info). -/
  space : Option (Nat × Nat)
  label : String
  is_current_system : Bool
  has_windows : Bool
  /-- Decoded stdout of the PowerShell `Get-Partition` query, `none` = the
  command could not be run. -/
  ps_output : Option String
  script_write_ok : Bool
  diskpart_volume_output : Option String
  disk_script_write_ok : Bool
  diskpart_disk_output : Nat → Option String

def DRIVE_FIXED : Nat := 3

/-- `DiskManager::get_disk_partition_style` (diskpart `detail disk`). -/
def get_disk_partition_style (env : DriveEnv) (disk_number : Nat) :
    PartitionStyle :=
  if !env.disk_script_write_ok then .Unknown
  else match env.diskpart_disk_output disk_number with
  | none => .Unknown
  | some out =>
    let stdout := asciiUpper out.data
    if containsSub "GPT".data stdout then .GPT
    else if containsSub "MBR".data stdout then .MBR
    else .Unknown

/-- One pass of the diskpart transcript scan: update `(disk_num, part_num)`
with the numbers found on one line. -/
def diskpart_scan_line (acc : Option Nat × Option Nat) (line : List Char) :
    Option Nat × Option Nat :=
  let line_upper := asciiUpper line
  let acc :=
    if (containsSub "磁盘".data line_upper || containsSub "DISK".data line_upper)
        && !containsSub "磁盘 ID".data line_upper
        && !containsSub "DISK ID".data line_upper then
      match (splitWs line).find? (fun s => (parseU32 s).isSome) with
      | some num => (parseU32 num, acc.2)
      | none => acc
    else acc
  if containsSub "分区".data line_upper
      || containsSub "PARTITION".data line_upper then
    match (splitWs line).find? (fun s => (parseU32 s).isSome) with
    | some num => (acc.1, parseU32 num)
    | none => acc
  else acc

/-- `DiskManager::get_partition_style_diskpart` (fallback strategy). -/
def get_partition_style_diskpart (env : DriveEnv) : PartitionDetail :=
  if !env.script_write_ok then ⟨.Unknown, none, none⟩
  else match env.diskpart_volume_output with
  | none => ⟨.Unknown, none, none⟩
  | some out =>
    let nums := (rustLines out.data).foldl diskpart_scan_line (none, none)
    let style := match nums.1 with
      | some num => get_disk_partition_style env num
      | none => PartitionStyle.Unknown
    ⟨style, nums.1, nums.2⟩

/-- `DiskManager::get_partition_style` (primary strategy with fallback). -/
def get_partition_style (env : DriveEnv) : PartitionDetail :=
  match env.ps_output with
  | some out =>
    let stdout := trimChars out.data
    match splitOnSep '|' stdout with
    | p0 :: p1 :: p2 :: _ =>
      let style :=
        if asciiUpper p0 = "GPT".data then PartitionStyle.GPT
        else if asciiUpper p0 = "MBR".data then PartitionStyle.MBR
        else PartitionStyle.Unknown
      ⟨style, parseU32 p1, parseU32 p2⟩
    | _ => get_partition_style_diskpart env
  | none => get_partition_style_diskpart env

/-- Drive name `"A:"` … `"Z:"`. -/
def driveName (letter : Char) : String := String.mk [letter, ':']

/-- `DiskManager::get_partition_info` (PE side: `is_system_partition` means
"has Windows and is not the PE's own system drive"). -/
def get_partition_info (letter : Char) (env : DriveEnv) :
    Except String Partition :=
  if env.drive_type ≠ DRIVE_FIXED then .error "Not a fixed drive"
  else match env.space with
  | none => .error "GetDiskFreeSpaceExW failed"
  | some (free_bytes_available, total_bytes) =>
    let detail := get_partition_style env
    .ok
      { letter := driveName letter
        total_size_mb := total_bytes / 1024 / 1024
        free_size_mb := free_bytes_available / 1024 / 1024
        label := env.label
        is_system_partition := env.has_windows && !env.is_current_system
        has_windows := env.has_windows
        partition_style := detail.style
        disk_number := detail.disk_number
        partition_number := detail.partition_number }

def lettersAZ : List Char :=
  "ABCDEFGHIJKLMNOPQRSTUVWXYZ".data

/-- The partitions accumulated by `DiskManager::get_partitions`: drives whose
info fails are skipped (`if let Ok(info) = ... { partitions.push(info) }`). -/
def get_partitions_list (envs : Char → DriveEnv) : List Partition :=
  lettersAZ.filterMap fun letter =>
    (get_partition_info letter (envs letter)).toOption

/-- `DiskManager::get_partitions`: the function itself always returns `Ok`. -/
def get_partitions (envs : Char → DriveEnv) : Except String (List Partition) :=
  .ok (get_partitions_list envs)

/-! ## Unattended-setup answer file
(`PE端/src/app.rs`, `generate_unattend_xml`)

The `format!` template with its three `{}` username substitution points
(DisplayName, Name, Username), transcribed verbatim; the function falls back
to `"User"` for an empty username and writes the result to
`\\Windows\\Panther\\unattend.xml` on the target partition. -/

/-- Segment 1 of the `generate_unattend_xml` template (`PE端/src/app.rs`). -/
def unattend_part1 : String :=
  "<?xml version=\"1.0\" encoding=\"utf-8\"?>\n<unattend xmlns=\"urn:schemas-microsoft-com:unattend\" xmlns:wcm=\"http://schemas.microsoft.com/WMIConfig/2002/State\">\n    <settings pass=\"windowsPE\">\n        <component name=\"Microsoft-Windows-Setup\" processorArchitecture=\"amd64\" publicKeyToken=\"31bf3856ad364e35\" language=\"neutral\" versionScope=\"nonSxS\">\n            <UserData>\n                <ProductKey>\n                    <WillShowUI>OnError</WillShowUI>\n                </ProductKey>\n                <AcceptEula>true</AcceptEula>\n            </UserData>\n        </component>\n    </settings>\n    <settings pass=\"oobeSystem\">\n        <component name=\"Microsoft-Windows-Shell-Setup\" processorArchitecture=\"amd64\" publicKeyToken=\"31bf3856ad364e35\" language=\"neutral\" versionScope=\"nonSxS\" xmlns:wcm=\"http://schemas.microsoft.com/WMIConfig/2002/State\" xmlns:xsi=\"http://www.w3.org/2001/XMLSchema-instance\">\n            <OOBE>\n                <HideEULAPage>true</HideEULAPage>\n                <HideLocalAccountScreen>true</HideLocalAccountScreen>\n                <HideOEMRegistrationScreen>true</HideOEMRegistrationScreen>\n                <HideOnlineAccountScreens>true</HideOnlineAccountScreens>\n                <HideWirelessSetupInOOBE>true</HideWirelessSetupInOOBE>\n                <ProtectYourPC>3</ProtectYourPC>\n                <SkipMachineOOBE>true</SkipMachineOOBE>\n                <SkipUserOOBE>true</SkipUserOOBE>\n            </OOBE>\n            <UserAccounts>\n                <LocalAccounts>\n                    <LocalAccount wcm:action=\"add\">\n                        <Password>\n                            <Value></Value>\n                            <PlainText>true</PlainText>\n                        </Password>\n                        <Description>Local User</Description>\n                        <DisplayName>"

/-- Segment 2 of the `generate_unattend_xml` template (`PE端/src/app.rs`). -/
def unattend_part2 : String :=
  "</DisplayName>\n                        <Group>Administrators</Group>\n                        <Name>"

/-- Segment 3 of the `generate_unattend_xml` template (`PE端/src/app.rs`). -/
def unattend_part3 : String :=
  "</Name>\n                    </LocalAccount>\n                </LocalAccounts>\n            </UserAccounts>\n            <AutoLogon>\n                <Password>\n                    <Value></Value>\n                    <PlainText>true</PlainText>\n                </Password>\n                <Enabled>true</Enabled>\n                <Username>"

/-- Segment 4 of the `generate_unattend_xml` template (`PE端/src/app.rs`). -/
def unattend_part4 : String :=
  "</Username>\n            </AutoLogon>\n        </component>\n    </settings>\n</unattend>"

/-- The XML content written by `generate_unattend_xml`. -/
def generate_unattend_xml (username : String) : String :=
  let username := if username = "" then "User" else username
  unattend_part1 ++ username ++ unattend_part2 ++ username ++
    unattend_part3 ++ username ++ unattend_part4

/-! ## Theorems -/

/-- C4: `unload_hive` retries up to 5 times (attempts 0–4, each followed by a
fixed 500 ms backoff in the source) before one final attempt (index 5) whose
failure is surfaced as an error.  A sequence that fails on attempts 1–4 and
succeeds on attempt 5 (indices 0–3 fail, index 4 succeeds) returns success,
and the result is an error exactly when all six attempts fail. -/
theorem unload_hive_retry_semantics (outcome : Nat → Bool) :
    ((outcome 0 = false ∧ outcome 1 = false ∧ outcome 2 = false ∧
      outcome 3 = false ∧ outcome 4 = true) →
      unload_hive outcome = .ok ()) ∧
    ((unload_hive outcome).isOk = false ↔ ∀ i, i ≤ 5 → outcome i = false) := by
  have key : (unload_hive outcome).isOk = false ↔
      (outcome 0 = false ∧ outcome 1 = false ∧ outcome 2 = false ∧
       outcome 3 = false ∧ outcome 4 = false ∧ outcome 5 = false) := by
    cases h0 : outcome 0 <;> cases h1 : outcome 1 <;> cases h2 : outcome 2 <;>
      cases h3 : outcome 3 <;> cases h4 : outcome 4 <;> cases h5 : outcome 5 <;>
      simp [unload_hive, unload_hive_loop, Except.isOk, Except.toBool, h0, h1, h2, h3, h4, h5]
  constructor
  · rintro ⟨h0, h1, h2, h3, h4⟩
    simp [unload_hive, unload_hive_loop, h0, h1, h2, h3, h4]
  · rw [key]
    constructor
    · rintro ⟨h0, h1, h2, h3, h4, h5⟩ i hi
      interval_cases i <;> assumption
    · intro h
      exact ⟨h 0 (by omega), h 1 (by omega), h 2 (by omega), h 3 (by omega),
        h 4 (by omega), h 5 (by omega)⟩

/-- Witness for C4: failures on attempts 1–4, success on attempt 5. -/
theorem unload_hive_retry_semantics_witness :
    unload_hive (fun i => decide (i = 4)) = .ok () :=
  (unload_hive_retry_semantics (fun i => decide (i = 4))).1
    ⟨by decide, by decide, by decide, by decide, by decide⟩

/-- C10: the normal-OS-side `DiskManager::format_partition` returns
`Ok(stdout)` for every invocation in which the process was spawned, regardless
of its exit status, so a failed format is indistinguishable from a successful
one through the result; only a spawn/I-O error yields `Err`.  The PE-side
variant, by contrast, returns `Err` on a non-zero exit status. -/
theorem format_partition_exit_status_contrast :
    (∀ output : ProcOutput,
      normal_format_partition (.ok output) = .ok output.stdout) ∧
    (∀ e : String, normal_format_partition (.error e) = .error e) ∧
    (∀ output : ProcOutput, output.success = false →
      pe_format_partition (.ok output) =
        .error ("格式化失败: " ++ output.stderr)) := by
  refine ⟨fun _ => rfl, fun _ => rfl, fun output h => ?_⟩
  simp [pe_format_partition, h]

/-- Witness for C10: a spawned format that exits with failure still yields
`Ok` on the normal-OS side and `Err` on the PE side. -/
theorem format_partition_exit_status_contrast_witness :
    normal_format_partition (.ok ⟨false, "formatting", "oops"⟩) =
      .ok "formatting" ∧
    pe_format_partition (.ok ⟨false, "formatting", "oops"⟩) =
      .error ("格式化失败: " ++ "oops") :=
  ⟨format_partition_exit_status_contrast.1 ⟨false, "formatting", "oops"⟩,
   format_partition_exit_status_contrast.2.2 ⟨false, "formatting", "oops"⟩ rfl⟩

/-- C5: in the PE backup workflow, once the job record is read, `appendImage`
is invoked exactly when `incremental` is set and a container file already
exists at `save_path`; in every other case `captureImage` is invoked. -/
theorem backup_append_vs_capture (env : PEBackupEnv) (p : String)
    (config : BackupConfig)
    (hfind : env.find_data_partition = some p)
    (hread : env.read_backup_config = .ok config) :
    (Ev.op .appendImage ∈ execute_backup_workflow env ↔
      (config.incremental = true ∧ env.save_path_exists_before = true)) ∧
    (Ev.op .captureImage ∈ execute_backup_workflow env ↔
      ¬(config.incremental = true ∧ env.save_path_exists_before = true)) := by
  cases hinc : config.incremental <;>
    cases hbef : env.save_path_exists_before <;>
      cases hres : (if config.incremental && env.save_path_exists_before
                    then env.append_result else env.capture_result) <;>
        cases haft : env.save_path_exists_after <;>
          simp_all [execute_backup_workflow, hfind, hread]

/-- Witness for C5: incremental with an existing container appends. -/
theorem backup_append_vs_capture_witness :
    Ev.op .appendImage ∈ execute_backup_workflow
      { find_data_partition := some "D:"
        read_backup_config := .ok
          { source_partition := "C:", save_path := "D:\\backup.wim"
            name := "b", description := "d", incremental := true }
        find_backup_marker_partition := none
        save_path_exists_before := true
        append_result := .ok ()
        capture_result := .ok ()
        save_path_exists_after := true } :=
  (backup_append_vs_capture _ "D:" _ rfl rfl).1.mpr ⟨rfl, rfl⟩

/-- C6: for a volume list with three entries of which exactly one has
`INSTALLATIONTYPE = WindowsPE` and the other two are installable OS entries,
the filtered installable list excludes exactly the WindowsPE entry and
preserves the relative order of the remaining two — for every position of the
WindowsPE entry. -/
theorem installable_filter_excludes_pe (v1 v2 pe : UiImageInfo)
    (hpe : asciiLower pe.installation_type.data = "windowspe".data)
    (h1 : is_installable_image v1 = true)
    (h2 : is_installable_image v2 = true) :
    (installable_volumes [pe, v1, v2]).map Prod.snd = [v1, v2] ∧
    (installable_volumes [v1, pe, v2]).map Prod.snd = [v1, v2] ∧
    (installable_volumes [v1, v2, pe]).map Prod.snd = [v1, v2] := by
  have hpeF : is_installable_image pe = false := by
    unfold is_installable_image
    simp [hpe]
  refine ⟨?_, ?_, ?_⟩ <;>
    simp [installable_volumes, List.enum, List.enumFrom, List.filter,
      hpeF, h1, h2]

/-- Witness for C6: a three-volume image with a middle WindowsPE entry. -/
theorem installable_filter_excludes_pe_witness :
    (installable_volumes
      [⟨1, "Windows 11 Pro", "Client"⟩,
       ⟨2, "Microsoft Windows PE (x64)", "WindowsPE"⟩,
       ⟨3, "Windows 11 Home", "Client"⟩]).map Prod.snd =
      [⟨1, "Windows 11 Pro", "Client"⟩, ⟨3, "Windows 11 Home", "Client"⟩] :=
  (installable_filter_excludes_pe
    ⟨1, "Windows 11 Pro", "Client"⟩ ⟨3, "Windows 11 Home", "Client"⟩
    ⟨2, "Microsoft Windows PE (x64)", "WindowsPE"⟩
    (by decide) (by decide) (by decide)).2.1

/-- A config record with all optional features off (used by concrete
workflow scenarios). -/
def plainConfig : InstallConfig :=
  { unattended := false, restore_drivers := false, auto_reboot := false
    volume_index := 1, target_partition := "C:", image_path := "install.wim"
    is_gho := false, remove_shortcut_arrow := false
    restore_classic_context_menu := false, bypass_nro := false
    disable_windows_update := false, disable_windows_defender := false
    disable_reserved_storage := false, disable_uac := false
    disable_device_encryption := false, remove_uwp_apps := false
    import_storage_controller_drivers := false, custom_username := "" }

/-- C1 counterexample input: a normal-OS direct-mode install whose image
apply fails; everything else is set so that the optional steps run. -/
def c1DirectEnv : DirectEnv :=
  { format_result := .ok (), export_result := .ok ()
    ghost_available := true, ghost_restore_result := .ok ()
    apply_image_result := .error "DISM failed"
    driver_backup_exists := true, import_result := .ok ()
    repair_result := .ok (), advanced_result := .ok ()
    unattend_result := .ok () }

def c1Options : InstallOptions :=
  { format_partition := true, repair_boot := true, unattended_install := true
    export_drivers := true, auto_reboot := false, boot_mode := .Auto }

/-- C1 counterexample: in the normal-OS direct-mode install workflow an
image-apply error does NOT abort the sequence — the later steps (driver
import, boot repair, advanced options) are still executed, contradicting the
claim that a hard image-apply failure aborts the remainder in every install
workflow. -/
theorem direct_install_continues_after_apply_error :
    c1DirectEnv.apply_image_result = .error "DISM failed" ∧
    NEv.op .dismApply ∈
      start_direct_install_thread c1DirectEnv c1Options "C:\\install.wim" .GPT ∧
    NEv.op .importDrivers ∈
      start_direct_install_thread c1DirectEnv c1Options "C:\\install.wim" .GPT ∧
    NEv.op .repairBootAdvanced ∈
      start_direct_install_thread c1DirectEnv c1Options "C:\\install.wim" .GPT ∧
    NEv.op .applyAdvancedOptions ∈
      start_direct_install_thread c1DirectEnv c1Options "C:\\install.wim" .GPT ∧
    NEv.sendStep 7 "完成安装" 100 ∈
      start_direct_install_thread c1DirectEnv c1Options "C:\\install.wim" .GPT := by
  decide

/-- C1 (amended): in the PE-side install and backup workflows every hard
failure (missing config record, missing image file, format failure, image
apply/capture failure) aborts the remainder of the sequence and reports a
`Failed` message to the UI; in the normal-OS direct-mode install thread, by
contrast, an image-apply error is only logged and the later steps (driver
import, boot repair, advanced options) still execute. -/
theorem hard_failure_abort_policy :
    (∀ (env : PEInstallEnv) (p e : String),
      env.find_data_partition = some p →
      env.read_install_config = .error e →
      Ev.msg (.Failed ("读取配置失败: " ++ e)) ∈ execute_install_workflow env ∧
      Ev.op .formatPartition ∉ execute_install_workflow env ∧
      Ev.msg .Completed ∉ execute_install_workflow env) ∧
    (∀ (env : PEInstallEnv) (p : String) (config : InstallConfig),
      env.find_data_partition = some p →
      env.read_install_config = .ok config →
      env.image_file_exists = false →
      Ev.msg (.Failed ("镜像文件不存在: " ++
        (env.data_dir ++ "\\" ++ config.image_path))) ∈
        execute_install_workflow env ∧
      Ev.op .formatPartition ∉ execute_install_workflow env ∧
      Ev.msg .Completed ∉ execute_install_workflow env) ∧
    (∀ (env : PEInstallEnv) (p : String) (config : InstallConfig) (e : String),
      env.find_data_partition = some p →
      env.read_install_config = .ok config →
      env.image_file_exists = true →
      env.format_result = .error e →
      Ev.msg (.Failed ("格式化分区失败: " ++ e)) ∈ execute_install_workflow env ∧
      Ev.op .dismApply ∉ execute_install_workflow env ∧
      Ev.op .ghostRestore ∉ execute_install_workflow env ∧
      Ev.msg .Completed ∉ execute_install_workflow env) ∧
    (∀ (env : PEInstallEnv) (p : String) (config : InstallConfig) (s e : String),
      env.find_data_partition = some p →
      env.read_install_config = .ok config →
      env.image_file_exists = true →
      env.format_result = .ok s →
      config.is_gho = false →
      env.apply_image_result = .error e →
      Ev.msg (.Failed ("释放镜像失败: " ++ e)) ∈ execute_install_workflow env ∧
      Ev.op .addDriversOffline ∉ execute_install_workflow env ∧
      Ev.op .repairBootAdvanced ∉ execute_install_workflow env ∧
      Ev.op .applyAdvancedOptions ∉ execute_install_workflow env ∧
      Ev.op .generateUnattend ∉ execute_install_workflow env ∧
      Ev.msg .Completed ∉ execute_install_workflow env) ∧
    (∀ (env : PEBackupEnv) (p : String) (config : BackupConfig) (e : String),
      env.find_data_partition = some p →
      env.read_backup_config = .ok config →
      (if config.incremental && env.save_path_exists_before
        then env.append_result else env.capture_result) = .error e →
      Ev.msg (.Failed ("备份失败: " ++ e)) ∈ execute_backup_workflow env ∧
      Ev.op .deleteCurrentBootEntry ∉ execute_backup_workflow env ∧
      Ev.msg .Completed ∉ execute_backup_workflow env) ∧
    (∀ (env : DirectEnv) (opts : InstallOptions) (img : String)
        (st : PartitionStyle) (e : String),
      env.apply_image_result = .error e →
      opts.export_drivers = true →
      env.driver_backup_exists = true →
      opts.repair_boot = true →
      NEv.op .importDrivers ∈ start_direct_install_thread env opts img st ∧
      NEv.op .repairBootAdvanced ∈ start_direct_install_thread env opts img st ∧
      NEv.op .applyAdvancedOptions ∈ start_direct_install_thread env opts img st ∧
      NEv.sendStep 7 "完成安装" 100 ∈ start_direct_install_thread env opts img st) := by
  refine ⟨?_, ?_, ?_, ?_, ?_, ?_⟩
  · intro env p e h1 h2
    simp [execute_install_workflow, h1, h2]
  · intro env p config h1 h2 h3
    simp [execute_install_workflow, h1, h2, h3]
  · intro env p config e h1 h2 h3 h4
    simp [execute_install_workflow, h1, h2, h3, h4]
  · intro env p config s e h1 h2 h3 h4 h5 h6
    simp [execute_install_workflow, h1, h2, h3, h4, h5, h6]
  · intro env p config e h1 h2 h3
    cases hc : (config.incremental && env.save_path_exists_before) <;>
      simp [hc] at h3 <;>
      simp [execute_backup_workflow, h1, h2, hc, h3]
  · intro env opts img st e h1 h2 h3 h4
    simp [start_direct_install_thread, h2, h3, h4]

/-- C1 witness input: a PE install whose image apply fails. -/
def c1PeEnv : PEInstallEnv :=
  { find_data_partition := some "D:", data_dir := "D:\\LetRecovery"
    read_install_config := .ok plainConfig
    find_install_marker_partition := none, image_file_exists := true
    format_result := .ok "formatted", ghost_available := true
    ghost_restore_result := .ok (), apply_image_result := .error "wim error"
    driver_dir_exists := true, add_drivers_result := .ok ()
    repair_boot_result := .ok (), apply_advanced_result := .ok ()
    generate_unattend_result := .ok () }

/-- Witness for C1: the PE abort conjunct and the direct-mode continuation
conjunct, each at a concrete input. -/
theorem hard_failure_abort_policy_witness :
    (Ev.msg (.Failed ("释放镜像失败: " ++ "wim error")) ∈
        execute_install_workflow c1PeEnv ∧
      Ev.op .addDriversOffline ∉ execute_install_workflow c1PeEnv ∧
      Ev.op .repairBootAdvanced ∉ execute_install_workflow c1PeEnv ∧
      Ev.op .applyAdvancedOptions ∉ execute_install_workflow c1PeEnv ∧
      Ev.op .generateUnattend ∉ execute_install_workflow c1PeEnv ∧
      Ev.msg .Completed ∉ execute_install_workflow c1PeEnv) ∧
    (NEv.op .importDrivers ∈
        start_direct_install_thread c1DirectEnv c1Options "C:\\a.wim" .GPT ∧
      NEv.op .repairBootAdvanced ∈
        start_direct_install_thread c1DirectEnv c1Options "C:\\a.wim" .GPT ∧
      NEv.op .applyAdvancedOptions ∈
        start_direct_install_thread c1DirectEnv c1Options "C:\\a.wim" .GPT ∧
      NEv.sendStep 7 "完成安装" 100 ∈
        start_direct_install_thread c1DirectEnv c1Options "C:\\a.wim" .GPT) :=
  ⟨hard_failure_abort_policy.2.2.2.1 c1PeEnv "D:" plainConfig "formatted"
      "wim error" rfl rfl rfl rfl rfl rfl,
   hard_failure_abort_policy.2.2.2.2.2 c1DirectEnv c1Options "C:\\a.wim" .GPT
      "DISM failed" rfl rfl rfl rfl⟩

/-- C2 counterexample input: a PE install where boot repair exhausts its
strategies and fails. -/
def c2PeEnv : PEInstallEnv :=
  { find_data_partition := some "D:", data_dir := "D:\\LetRecovery"
    read_install_config := .ok plainConfig
    find_install_marker_partition := none, image_file_exists := true
    format_result := .ok "formatted", ghost_available := true
    ghost_restore_result := .ok (), apply_image_result := .ok ()
    driver_dir_exists := true, add_drivers_result := .ok ()
    repair_boot_result := .error "所有引导修复策略均失败"
    apply_advanced_result := .ok (), generate_unattend_result := .ok () }

/-- C2 counterexample: in the PE install workflow a boot-repair failure does
NOT let the orchestrator proceed — the workflow reports `Failed` and none of
the later steps (advanced options, unattend, cleanup, completion) run,
contradicting the claim that the orchestrator still proceeds after boot
repair exhausts its strategies. -/
theorem pe_boot_repair_failure_aborts :
    c2PeEnv.repair_boot_result = .error "所有引导修复策略均失败" ∧
    Ev.msg (.Failed ("修复引导失败: " ++ "所有引导修复策略均失败")) ∈
      execute_install_workflow c2PeEnv ∧
    Ev.op .applyAdvancedOptions ∉ execute_install_workflow c2PeEnv ∧
    Ev.msg (.SetInstallStep .ApplyAdvancedOptions) ∉
      execute_install_workflow c2PeEnv ∧
    Ev.op .cleanupAll ∉ execute_install_workflow c2PeEnv ∧
    Ev.msg .Completed ∉ execute_install_workflow c2PeEnv := by
  decide

/-- C2 (amended): boot-repair failure is fatal in the PE install workflow —
the orchestrator reports `Failed` and executes none of the later steps
(driver import in fact precedes boot repair in both orchestrators); only in
the normal-OS direct-mode install thread is a boot-repair failure logged and
the workflow continued to advanced options and completion. -/
theorem boot_repair_failure_policy :
    (∀ (env : PEInstallEnv) (p : String) (config : InstallConfig) (s e : String),
      env.find_data_partition = some p →
      env.read_install_config = .ok config →
      env.image_file_exists = true →
      env.format_result = .ok s →
      config.is_gho = false →
      env.apply_image_result = .ok () →
      env.repair_boot_result = .error e →
      Ev.msg (.Failed ("修复引导失败: " ++ e)) ∈ execute_install_workflow env ∧
      Ev.op .applyAdvancedOptions ∉ execute_install_workflow env ∧
      Ev.op .generateUnattend ∉ execute_install_workflow env ∧
      Ev.op .cleanupAll ∉ execute_install_workflow env ∧
      Ev.msg .Completed ∉ execute_install_workflow env) ∧
    (∀ (env : DirectEnv) (opts : InstallOptions) (img : String)
        (st : PartitionStyle) (e : String),
      env.repair_result = .error e →
      opts.repair_boot = true →
      NEv.op .repairBootAdvanced ∈ start_direct_install_thread env opts img st ∧
      NEv.op .applyAdvancedOptions ∈ start_direct_install_thread env opts img st ∧
      NEv.sendStep 7 "完成安装" 100 ∈ start_direct_install_thread env opts img st) := by
  constructor
  · intro env p config s e h1 h2 h3 h4 h5 h6 h7
    cases hrd : config.restore_drivers <;>
      cases hdd : env.driver_dir_exists <;>
        simp [execute_install_workflow, h1, h2, h3, h4, h5, h6, h7, hrd, hdd]
  · intro env opts img st e h1 h2
    cases hed : opts.export_drivers <;>
      cases hdb : env.driver_backup_exists <;>
        simp [start_direct_install_thread, h2, hed, hdb]

/-- C2 witness inputs: a direct-mode install whose boot repair fails. -/
def c2DirectEnv : DirectEnv :=
  { format_result := .ok (), export_result := .ok ()
    ghost_available := true, ghost_restore_result := .ok ()
    apply_image_result := .ok ()
    driver_backup_exists := true, import_result := .ok ()
    repair_result := .error "bcdboot failed", advanced_result := .ok ()
    unattend_result := .ok () }

/-- Witness for C2: both conjuncts at concrete inputs. -/
theorem boot_repair_failure_policy_witness :
    (Ev.msg (.Failed ("修复引导失败: " ++ "所有引导修复策略均失败")) ∈
        execute_install_workflow c2PeEnv ∧
      Ev.op .applyAdvancedOptions ∉ execute_install_workflow c2PeEnv ∧
      Ev.op .generateUnattend ∉ execute_install_workflow c2PeEnv ∧
      Ev.op .cleanupAll ∉ execute_install_workflow c2PeEnv ∧
      Ev.msg .Completed ∉ execute_install_workflow c2PeEnv) ∧
    (NEv.op .repairBootAdvanced ∈
        start_direct_install_thread c2DirectEnv c1Options "C:\\a.wim" .GPT ∧
      NEv.op .applyAdvancedOptions ∈
        start_direct_install_thread c2DirectEnv c1Options "C:\\a.wim" .GPT ∧
      NEv.sendStep 7 "完成安装" 100 ∈
        start_direct_install_thread c2DirectEnv c1Options "C:\\a.wim" .GPT) :=
  ⟨boot_repair_failure_policy.1 c2PeEnv "D:" plainConfig "formatted"
      "所有引导修复策略均失败" rfl rfl rfl rfl rfl rfl rfl,
   boot_repair_failure_policy.2 c2DirectEnv c1Options "C:\\a.wim" .GPT
      "bcdboot failed" rfl rfl⟩

/-- C3 counterexample input: loading the SOFTWARE hive succeeds but loading
the SYSTEM hive fails. -/
def c3Env : AdvEnv :=
  { load_soft := true, load_sys := false, load_default := false
    create_scripts_dir := true, write_uwp_script := true
    storage_drivers_dir_exists := false, add_drivers_result := .ok ()
    reload_soft := true, reload_sys := true, reload_default := true
    write_username := true }

/-- C3 counterexample: on the exit path where the SYSTEM hive load fails,
`apply_advanced_options` returns an error without attempting any unload, so
the successfully loaded SOFTWARE hive is leaked — refuting the claim that
every load is paired with an unload on every exit path. -/
theorem advanced_options_leaks_hive_on_error :
    (apply_advanced_options c3Env plainConfig).1 =
      .error "加载注册表配置单元失败" ∧
    RegEv.load "pc-soft" true ∈ (apply_advanced_options c3Env plainConfig).2 ∧
    ¬ pairedOnExit (apply_advanced_options c3Env plainConfig).2 := by
  refine ⟨rfl, by decide, ?_⟩
  intro h
  have := h "pc-soft" (by decide)
  revert this
  decide

/-- C3 (amended): unloads are attempted for every successfully loaded hive on
the `Ok` exit path (and around the storage-driver import), but the early
error exits — SYSTEM hive load failure, script-directory creation failure,
UWP-script or username file write failure — return without unloading the
hives already loaded. -/
theorem advanced_options_unload_on_ok (env : AdvEnv) (config : InstallConfig)
    (hok : (apply_advanced_options env config).1 = .ok ()) :
    pairedOnExit (apply_advanced_options env config).2 := by
  cases h1 : env.load_soft
  · simp [apply_advanced_options, h1] at hok
  · cases h2 : env.load_sys
    · simp [apply_advanced_options, h1, h2] at hok
    · cases h3 : env.create_scripts_dir
      · simp [apply_advanced_options, h1, h2, h3] at hok
      · cases h4 : (config.remove_uwp_apps && !env.write_uwp_script)
        · cases h5 : (decide (config.custom_username ≠ "") &&
              !env.write_username)
          · cases hS : (config.import_storage_controller_drivers &&
                env.storage_drivers_dir_exists) <;>
              cases hD : env.load_default <;>
                cases hr1 : env.reload_soft <;>
                  cases hr2 : env.reload_sys <;>
                    cases hr3 : env.reload_default <;>
                      · simp only [apply_advanced_options, h1, h2, h3, h4, h5,
                          hS, hD, hr1, hr2, hr3, Bool.not_true, Bool.not_false,
                          Bool.false_eq_true, if_true, if_false, ite_true,
                          ite_false, if_neg, List.append_assoc,
                          List.singleton_append, List.cons_append,
                          List.nil_append]
                        decide
          · simp only [Bool.and_eq_true, decide_eq_true_eq,
              Bool.not_eq_true'] at h5
            simp [apply_advanced_options, h1, h2, h3, h4, h5.1, h5.2] at hok
        · simp [apply_advanced_options, h1, h2, h3, h4] at hok

/-- C3 witness input: every load and file operation succeeds, with DEFAULT
loaded and the storage-driver branch active. -/
def c3OkEnv : AdvEnv :=
  { load_soft := true, load_sys := true, load_default := true
    create_scripts_dir := true, write_uwp_script := true
    storage_drivers_dir_exists := true, add_drivers_result := .ok ()
    reload_soft := true, reload_sys := true, reload_default := true
    write_username := true }

/-- Witness for C3 (amended): a successful run pairs each loaded hive with an
unload. -/
theorem advanced_options_unload_on_ok_witness :
    pairedOnExit (apply_advanced_options c3OkEnv plainConfig).2 :=
  advanced_options_unload_on_ok c3OkEnv plainConfig rfl

/-- C8: partition enumeration walks the fixed drive letters A–Z, silently
excluding (with `get_partitions` still returning `Ok`) every drive that is
not fixed or cannot be queried; a drive whose PowerShell style lookup and
diskpart fallback both fail is still included, with `Unknown` style and empty
disk/partition numbers. -/
theorem partition_enumeration_policy :
    (∀ envs : Char → DriveEnv, get_partitions envs = .ok (get_partitions_list envs)) ∧
    (∀ (envs : Char → DriveEnv) (c : Char),
      ((envs c).drive_type ≠ DRIVE_FIXED ∨ (envs c).space = none) →
      ∀ p ∈ get_partitions_list envs, p.letter ≠ driveName c) ∧
    (∀ env : DriveEnv, env.ps_output = none →
      env.diskpart_volume_output = none →
      get_partition_style env = ⟨.Unknown, none, none⟩) ∧
    (∀ (envs : Char → DriveEnv) (c : Char) (f t : Nat),
      c ∈ lettersAZ →
      (envs c).drive_type = DRIVE_FIXED →
      (envs c).space = some (f, t) →
      get_partition_style (envs c) = ⟨.Unknown, none, none⟩ →
      ({ letter := driveName c
         total_size_mb := t / 1024 / 1024
         free_size_mb := f / 1024 / 1024
         label := (envs c).label
         is_system_partition := (envs c).has_windows && !(envs c).is_current_system
         has_windows := (envs c).has_windows
         partition_style := .Unknown
         disk_number := none
         partition_number := none } : Partition) ∈ get_partitions_list envs) := by
  refine ⟨fun _ => rfl, ?_, ?_, ?_⟩
  · intro envs c hfail p hp
    rw [get_partitions_list, List.mem_filterMap] at hp
    obtain ⟨c', _hc', hsome⟩ := hp
    unfold get_partition_info at hsome
    split_ifs at hsome with hdt
    · simp [Except.toOption] at hsome
    · cases hsp : (envs c').space with
      | none => rw [hsp] at hsome; simp [Except.toOption] at hsome
      | some pr =>
        rw [hsp] at hsome
        obtain ⟨f', t'⟩ := pr
        simp only [Except.toOption, Option.some.injEq] at hsome
        subst hsome
        intro heq
        have hcc : c' = c := by
          have h2 := congrArg String.data heq
          simpa [driveName] using h2
        subst hcc
        rcases hfail with h | h
        · exact absurd (of_not_not (by simpa using hdt)) h
        · rw [hsp] at h; cases h
  · intro env h1 h2
    cases hsw : env.script_write_ok <;>
      simp [get_partition_style, get_partition_style_diskpart, h1, h2, hsw]
  · intro envs c f t hc hdt hsp hstyle
    rw [get_partitions_list, List.mem_filterMap]
    refine ⟨c, hc, ?_⟩
    simp [get_partition_info, hdt, hsp, hstyle, Except.toOption]

/-- C8 witness drive: a fixed, queryable drive whose PowerShell and diskpart
queries both fail. -/
def c8FixedDrive : DriveEnv :=
  { drive_type := 3, space := some (1048576, 2097152), label := "Data"
    is_current_system := false, has_windows := true, ps_output := none
    script_write_ok := true, diskpart_volume_output := none
    disk_script_write_ok := true, diskpart_disk_output := fun _ => none }

/-- C8 witness drive: a CD-ROM style drive (not fixed). -/
def c8OtherDrive : DriveEnv :=
  { drive_type := 5, space := none, label := "", is_current_system := false
    has_windows := false, ps_output := none, script_write_ok := false
    diskpart_volume_output := none, disk_script_write_ok := false
    diskpart_disk_output := fun _ => none }

def c8Envs : Char → DriveEnv :=
  fun c => if c = 'C' then c8FixedDrive else c8OtherDrive

set_option maxRecDepth 4000 in
/-- Witness for C8: `C:` is reported with Unknown style and empty numbers
while the unqueryable drives are excluded without an error. -/
theorem partition_enumeration_policy_witness :
    get_partitions c8Envs = .ok (get_partitions_list c8Envs) ∧
    get_partition_style c8FixedDrive = ⟨.Unknown, none, none⟩ ∧
    ({ letter := driveName 'C', total_size_mb := 2, free_size_mb := 1
       label := "Data", is_system_partition := true, has_windows := true
       partition_style := .Unknown, disk_number := none
       partition_number := none } : Partition) ∈ get_partitions_list c8Envs ∧
    (∀ p ∈ get_partitions_list c8Envs, p.letter ≠ driveName 'D') :=
  ⟨partition_enumeration_policy.1 c8Envs,
   partition_enumeration_policy.2.2.1 c8FixedDrive rfl rfl,
   partition_enumeration_policy.2.2.2 c8Envs 'C' 1048576 2097152
     (by decide) rfl rfl
     (partition_enumeration_policy.2.2.1 c8FixedDrive rfl rfl),
   partition_enumeration_policy.2.1 c8Envs 'D' (Or.inl (by decide))⟩

set_option maxRecDepth 10000 in
/-- C9 counterexample: with an empty custom username the generated answer
file does substitute the fallback `User`, but the literal `<Name>User</Name>`
occurs exactly once (the `LocalAccount` name element), not 3 times —
the three substitution points are `DisplayName`, `Name` and `Username`. -/
theorem unattend_name_literal_count :
    countSub "<Name>User</Name>".data (generate_unattend_xml "").data = 1 ∧
    ¬ countSub "<Name>User</Name>".data (generate_unattend_xml "").data = 3 := by
  constructor <;> decide

set_option maxRecDepth 10000 in
/-- C9 (amended): with an empty custom username, `generate_unattend_xml`
substitutes the fallback `User` at its three substitution points
(`DisplayName`, `Name`, `Username`), so `>User<` occurs exactly 3 times,
while the literal `<Name>User</Name>` occurs exactly once. -/
theorem unattend_username_substitution :
    generate_unattend_xml "" =
      unattend_part1 ++ "User" ++ unattend_part2 ++ "User" ++
        unattend_part3 ++ "User" ++ unattend_part4 ∧
    countSub ">User<".data (generate_unattend_xml "").data = 3 ∧
    countSub "<Name>User</Name>".data (generate_unattend_xml "").data = 1 ∧
    countSub "<DisplayName>User</DisplayName>".data
      (generate_unattend_xml "").data = 1 ∧
    countSub "<Username>User</Username>".data
      (generate_unattend_xml "").data = 1 := by
  refine ⟨rfl, ?_, ?_, ?_, ?_⟩ <;> decide

/-! ## WIM container metadata parser
(`PE端/src/core/dism.rs`: `Dism::parse_wim_xml_metadata`, `Dism::decode_utf16le`,
`Dism::parse_wim_xml`, `Dism::extract_xml_tag`)

The file is a byte sequence (`List Nat`, each < 256); the decoded Rust
`String` is its sequence of Unicode code points (`List Nat`), on which the
byte-indexed Rust `str` operations coincide for the ASCII tags involved.
A Rust `while` loop over an advancing position `pos` is modelled as recursion
on the suffix `xml[pos..]` with a fuel bound (each iteration advances `pos`
by at least 8, so `length + 1` fuel is never exhausted). -/

structure WimImageInfo where
  index : Nat
  name : List Nat
  size_bytes : Nat
  installation_type : List Nat
  deriving DecidableEq, Repr

/-- Code points of a string literal. -/
def cpOf (s : String) : List Nat := s.data.map Char.toNat

/-- Code-point whitespace test (ASCII fragment of Rust `char::is_whitespace`
used by `str::trim`). -/
def isWsCp (c : Nat) : Bool := c = 9 || c = 10 || c = 13 || c = 32

/-- Model of Rust `str::trim` on code points. -/
def trimCp (s : List Nat) : List Nat :=
  ((s.dropWhile isWsCp).reverse.dropWhile isWsCp).reverse

/-- Rust `str::parse::<uN>()` on code points (optional leading `+`, then
decimal digits, value must fit below `bound`). -/
def parseUNatCp (bound : Nat) (s : List Nat) : Option Nat :=
  let digits := if s.head? = some 43 then s.tail else s
  if digits = [] then none
  else if digits.all (fun c => 48 ≤ c && c ≤ 57) then
    let v := digits.foldl (fun acc c => acc * 10 + (c - 48)) 0
    if v < bound then some v else none
  else none

def parseU32cp (s : List Nat) : Option Nat := parseUNatCp (2 ^ 32) s

def parseU64cp (s : List Nat) : Option Nat := parseUNatCp (2 ^ 64) s

/-- `u64::from_le_bytes`. -/
def leU64 (bytes : List Nat) : Nat :=
  bytes.foldr (fun b acc => acc * 256 + b) 0

/-- The WIM signature `b"MSWIM\0\0\0"`. -/
def wimMagic : List Nat := [0x4D, 0x53, 0x57, 0x49, 0x4D, 0, 0, 0]

def imgOpenPat : List Nat := cpOf "<IMAGE INDEX=\""

def imgClosePat : List Nat := cpOf "</IMAGE>"

/-- Pair up little-endian byte pairs into 16-bit code units (the source's
`u16::from_le_bytes` loop; a trailing odd byte is ignored, as there). -/
def pairsLE : List Nat → List Nat
  | a :: b :: rest => (a + 256 * b) :: pairsLE rest
  | _ => []

/-- The source's trailing-NUL strip (`while utf16_data.last() == Some(&0)`). -/
def popTrailingZeros (units : List Nat) : List Nat :=
  (units.reverse.dropWhile (· = 0)).reverse

/-- `String::from_utf16`: code units to code points, surrogate pairs
combined, lone surrogates rejected. -/
def utf16Chars : List Nat → Except String (List Nat)
  | [] => .ok []
  | [u] =>
    if u < 0xD800 || 0xE000 ≤ u then .ok [u]
    else .error "UTF-16 解码失败"
  | u :: v :: rest =>
    if u < 0xD800 || 0xE000 ≤ u then
      (utf16Chars (v :: rest)).map (u :: ·)
    else if u < 0xDC00 then
      if 0xDC00 ≤ v && v < 0xE000 then
        (utf16Chars rest).map
          ((0x10000 + (u - 0xD800) * 0x400 + (v - 0xDC00)) :: ·)
      else .error "UTF-16 解码失败"
    else .error "UTF-16 解码失败"

/-- `Dism::decode_utf16le`. -/
def decode_utf16le (data : List Nat) : Except String (List Nat) :=
  match data with
  | a :: b :: _ =>
    let start := if a = 0xFF && b = 0xFE then 2 else 0
    utf16Chars (popTrailingZeros (pairsLE (data.drop start)))
  | _ => .error "数据太短"

/-- `Dism::extract_xml_tag`. -/
def extract_xml_tag (xml tag : List Nat) : Option (List Nat) :=
  let open_tag := [60] ++ tag ++ [62]
  let close_tag := [60, 47] ++ tag ++ [62]
  match findSub open_tag xml with
  | some start =>
    let content_start := start + open_tag.length
    match findSub close_tag (xml.drop content_start) with
    | some endIdx => some (trimCp ((xml.drop content_start).take endIdx))
    | none => none
  | none => none

/-- The scan loop of `Dism::parse_wim_xml`, on the suffix `xml[pos..]`. -/
def parse_wim_xml_loop : Nat → List Nat → List WimImageInfo → List WimImageInfo
  | 0, _, images => images
  | fuel + 1, s, images =>
    match findSub imgOpenPat s with
    | none => images
    | some start =>
      let t := s.drop start
      match findSub [34] (t.drop 14) with
      | none => parse_wim_xml_loop fuel (t.drop 14) images
      | some index_end =>
        let index_str := (t.drop 14).take index_end
        let index := (parseU32cp index_str).getD 0
        match findSub imgClosePat t with
        | none => parse_wim_xml_loop fuel (t.drop 14) images
        | some image_end =>
          let image_block := t.take (image_end + 8)
          let name :=
            ((extract_xml_tag image_block (cpOf "DISPLAYNAME")).orElse
              (fun _ => extract_xml_tag image_block (cpOf "NAME"))).getD []
          let size_bytes :=
            ((extract_xml_tag image_block (cpOf "TOTALBYTES")).bind
              (fun c => parseU64cp c)).getD 0
          let installation_type :=
            (extract_xml_tag image_block (cpOf "INSTALLATIONTYPE")).getD []
          let images :=
            if 0 < index ∧ name ≠ [] then
              images ++ [⟨index, name, size_bytes, installation_type⟩]
            else images
          parse_wim_xml_loop fuel (t.drop (image_end + 8)) images

/-- `Dism::parse_wim_xml`. -/
def parse_wim_xml (xml : List Nat) : Except String (List WimImageInfo) :=
  let images := parse_wim_xml_loop (xml.length + 1) xml []
  if images = [] then .error "未找到有效的镜像信息" else .ok images

/-- `Dism::parse_wim_xml_metadata`. -/
def parse_wim_xml_metadata (file : List Nat) :
    Except String (List WimImageInfo) :=
  if file.length < 208 then .error "读取 WIM 文件头失败"
  else
    let header := file.take 208
    if header.take 8 ≠ wimMagic then .error "不是有效的 WIM 文件"
    else
      let xml_offset := leU64 ((header.drop 48).take 8)
      let xml_size := leU64 ((header.drop 56).take 8)
      if xml_offset = 0 || xml_size = 0 || xml_size > 100000000 then
        .error "XML 元数据位置无效"
      else if file.length < xml_offset + xml_size then
        .error "读取 XML 数据失败"
      else
        match decode_utf16le ((file.drop xml_offset).take xml_size) with
        | .error e => .error e
        | .ok xml_string => parse_wim_xml xml_string

/-! ### Specification-side constructions for the round trip: a well-formed
WIM file assembled from a list of image entries. -/

/-- Big-endian decimal digit code points of `n` (empty for 0). -/
def digitsCp (n : Nat) : List Nat :=
  (Nat.digits 10 n).reverse.map (fun d => 48 + d)

/-- Render one `<IMAGE INDEX="n">…</IMAGE>` element. -/
def renderEntry (e : WimImageInfo) : List Nat :=
  cpOf "<IMAGE INDEX=\"" ++ digitsCp e.index ++ cpOf "\">" ++
  cpOf "<DISPLAYNAME>" ++ e.name ++ cpOf "</DISPLAYNAME>" ++
  cpOf "<TOTALBYTES>" ++ digitsCp e.size_bytes ++ cpOf "</TOTALBYTES>" ++
  cpOf "<INSTALLATIONTYPE>" ++ e.installation_type ++
  cpOf "</INSTALLATIONTYPE>" ++ cpOf "</IMAGE>"

/-- The embedded XML directory for a list of entries. -/
def renderXml (entries : List WimImageInfo) : List Nat :=
  (entries.map renderEntry).flatten

/-- UTF-16LE bytes of BMP code points. -/
def encodeUtf16le (cps : List Nat) : List Nat :=
  (cps.map fun u => [u % 256, u / 256 % 256]).flatten

/-- Little-endian 8-byte encoding of `n`. -/
def le64Bytes (n : Nat) : List Nat :=
  [n % 256, n / 256 % 256, n / 256 ^ 2 % 256, n / 256 ^ 3 % 256,
   n / 256 ^ 4 % 256, n / 256 ^ 5 % 256, n / 256 ^ 6 % 256, n / 256 ^ 7 % 256]

/-- A WIM file whose fixed-offset header points at a UTF-16LE XML blob (with
BOM) placed immediately after the 208-byte header. -/
def mkWimFile (cps : List Nat) : List Nat :=
  let blob := [0xFF, 0xFE] ++ encodeUtf16le cps
  wimMagic ++ List.replicate 40 0 ++ le64Bytes 208 ++ le64Bytes blob.length ++
    List.replicate 144 0 ++ blob

/-- Characters allowed in rendered name/installation-type fields: printable
BMP code points other than `<` and `"`. -/
def safeCp (c : Nat) : Bool :=
  decide (c ≠ 60) && decide (c ≠ 34) && decide (c ≠ 0) && decide (c < 0xD800)

/-- A renderable entry: representable index/size, safe field characters,
trim-stable fields. -/
def WfWimEntry (e : WimImageInfo) : Prop :=
  e.index < 2 ^ 32 ∧ e.size_bytes < 2 ^ 64 ∧
  e.name.all safeCp = true ∧ e.installation_type.all safeCp = true ∧
  trimCp e.name = e.name ∧ trimCp e.installation_type = e.installation_type

instance (e : WimImageInfo) : Decidable (WfWimEntry e) := by
  unfold WfWimEntry; infer_instance

/-! ### Substring-search machinery for the parser proofs -/

theorem isPrefixOfSeq_length {α : Type} [DecidableEq α] {pat l : List α}
    (h : isPrefixOfSeq pat l = true) : pat.length ≤ l.length := by
  induction pat generalizing l with
  | nil => simp
  | cons a as ih =>
    cases l with
    | nil => simp [isPrefixOfSeq] at h
    | cons b bs =>
      simp only [isPrefixOfSeq, Bool.and_eq_true, decide_eq_true_eq] at h
      simpa using ih h.2

theorem isPrefixOfSeq_getElem {α : Type} [DecidableEq α] {pat l : List α}
    (h : isPrefixOfSeq pat l = true) {k : Nat} (hk : k < pat.length) :
    l[k]? = pat[k]? := by
  induction pat generalizing l k with
  | nil => simp at hk
  | cons a as ih =>
    cases l with
    | nil => simp [isPrefixOfSeq] at h
    | cons b bs =>
      simp only [isPrefixOfSeq, Bool.and_eq_true, decide_eq_true_eq] at h
      cases k with
      | zero => simp [h.1]
      | succ k =>
        simp only [List.getElem?_cons_succ]
        exact ih h.2 (by simpa using hk)

theorem isPrefixOfSeq_of_agree {α : Type} [DecidableEq α] {pat l : List α}
    (hlen : pat.length ≤ l.length)
    (h : ∀ k, k < pat.length → l[k]? = pat[k]?) :
    isPrefixOfSeq pat l = true := by
  induction pat generalizing l with
  | nil => simp [isPrefixOfSeq]
  | cons a as ih =>
    cases l with
    | nil => simp at hlen
    | cons b bs =>
      have h0 := h 0 (by simp)
      simp only [List.getElem?_cons_zero, Option.some.injEq] at h0
      simp only [isPrefixOfSeq, Bool.and_eq_true, decide_eq_true_eq]
      refine ⟨h0.symm, ih (by simpa using hlen) ?_⟩
      intro k hk
      have := h (k + 1) (by simpa using hk)
      simpa using this

theorem isPrefixOfSeq_append_self {α : Type} [DecidableEq α]
    (p z : List α) : isPrefixOfSeq p (p ++ z) = true := by
  induction p with
  | nil => simp [isPrefixOfSeq]
  | cons a as ih => simpa [isPrefixOfSeq] using ih

theorem findSub_of_prefix {α : Type} [DecidableEq α] {pat xs : List α}
    (h : isPrefixOfSeq pat xs = true) : findSub pat xs = some 0 := by
  cases xs with
  | nil =>
    cases pat with
    | nil => simp [findSub]
    | cons a as => simp [isPrefixOfSeq] at h
  | cons x xs => simp [findSub, h]

theorem findSub_eq_some_of {α : Type} [DecidableEq α] {pat xs : List α}
    {n : Nat} (h0 : isPrefixOfSeq pat (xs.drop n) = true)
    (hmin : ∀ j, j < n → isPrefixOfSeq pat (xs.drop j) = false) :
    findSub pat xs = some n := by
  induction xs generalizing n with
  | nil =>
    cases n with
    | zero => exact findSub_of_prefix (by simpa using h0)
    | succ n =>
      have := hmin 0 (by omega)
      simp only [List.drop_nil] at this h0
      rw [this] at h0
      cases h0
  | cons x xs ih =>
    cases n with
    | zero => exact findSub_of_prefix (by simpa using h0)
    | succ n =>
      have hx : isPrefixOfSeq pat (x :: xs) = false := by
        simpa using hmin 0 (by omega)
      simp only [findSub, hx, Bool.false_eq_true, if_false, if_neg]
      have : findSub pat xs = some n := by
        apply ih (by simpa using h0)
        intro j hj
        simpa using hmin (j + 1) (by omega)
      simp [this]

theorem findSub_isPrefixOfSeq {α : Type} [DecidableEq α] {pat xs : List α} {n : Nat}
    (h : findSub pat xs = some n) : isPrefixOfSeq pat (xs.drop n) = true := by
  induction xs generalizing n with
  | nil =>
    by_cases hp : pat = []
    · subst hp; simp [isPrefixOfSeq]
    · simp [findSub, hp] at h
  | cons x xs ih =>
    by_cases hx : isPrefixOfSeq pat (x :: xs) = true
    · rw [findSub, if_pos hx] at h
      cases h
      simpa using hx
    · rw [findSub, if_neg hx] at h
      cases hn : findSub pat xs with
      | none => rw [hn] at h; cases h
      | some m =>
        rw [hn] at h
        simp only [Option.map_some', Option.some.injEq] at h
        subst h
        simpa using ih hn

theorem findSub_le_length {α : Type} [DecidableEq α] {pat xs : List α}
    {n : Nat} (h : findSub pat xs = some n) : n ≤ xs.length := by
  induction xs generalizing n with
  | nil =>
    by_cases hp : pat = []
    · subst hp; simp [findSub] at h; omega
    · simp [findSub, hp] at h
  | cons x xs ih =>
    by_cases hx : isPrefixOfSeq pat (x :: xs) = true
    · rw [findSub, if_pos hx] at h; cases h; omega
    · rw [findSub, if_neg hx] at h
      cases hn : findSub pat xs with
      | none => rw [hn] at h; cases h
      | some m =>
        rw [hn] at h
        simp only [Option.map_some', Option.some.injEq] at h
        subst h
        have := ih hn
        simp only [List.length_cons]
        omega

theorem findSub_bound {α : Type} [DecidableEq α] {pat xs : List α} {n : Nat}
    (h : findSub pat xs = some n) : n + pat.length ≤ xs.length := by
  have h1 := isPrefixOfSeq_length (findSub_isPrefixOfSeq h)
  have h2 := findSub_le_length h
  rw [List.length_drop] at h1
  omega

/-- `pat` has, at every start position inside `A`, a mismatch that is
witnessed inside `A` itself — so no occurrence of `pat` can start inside `A`,
whatever follows `A`. -/
def StrongNoOccur (pat A : List Nat) : Prop :=
  ∀ i, i < A.length →
    ∃ k, k < pat.length ∧ i + k < A.length ∧ A[i + k]? ≠ pat[k]?

/-- Executable check for `StrongNoOccur` (used on concrete tag literals). -/
def strongNoOccurB (pat A : List Nat) : Bool :=
  (List.range A.length).all fun i =>
    (List.range pat.length).any fun k =>
      decide (i + k < A.length) && decide (A[i + k]? ≠ pat[k]?)

theorem strongNoOccur_of_B {pat A : List Nat}
    (h : strongNoOccurB pat A = true) : StrongNoOccur pat A := by
  intro i hi
  rw [strongNoOccurB, List.all_eq_true] at h
  have := h i (List.mem_range.mpr hi)
  rw [List.any_eq_true] at this
  obtain ⟨k, hk, hcond⟩ := this
  simp only [Bool.and_eq_true, decide_eq_true_eq] at hcond
  exact ⟨k, List.mem_range.mp hk, hcond.1, hcond.2⟩

theorem StrongNoOccur.nil (pat : List Nat) : StrongNoOccur pat [] := by
  intro i hi; simp at hi

theorem StrongNoOccur.append {pat A B : List Nat}
    (hA : StrongNoOccur pat A) (hB : StrongNoOccur pat B) :
    StrongNoOccur pat (A ++ B) := by
  intro i hi
  rw [List.length_append] at hi
  by_cases hiA : i < A.length
  · obtain ⟨k, hk, hlt, hne⟩ := hA i hiA
    refine ⟨k, hk, by rw [List.length_append]; omega, ?_⟩
    rwa [List.getElem?_append_left hlt]
  · obtain ⟨k, hk, hlt, hne⟩ := hB (i - A.length) (by omega)
    refine ⟨k, hk, by rw [List.length_append]; omega, ?_⟩
    have hidx : i + k = A.length + (i - A.length + k) := by omega
    rw [hidx, List.getElem?_append_right (by omega)]
    simpa using hne

theorem StrongNoOccur.of_head_ne {pat : List Nat} {c : Nat} {S : List Nat}
    (hpat : pat[0]? = some c) (h : ∀ x ∈ S, x ≠ c) : StrongNoOccur pat S := by
  intro i hi
  refine ⟨0, ?_, by omega, ?_⟩
  · cases pat with
    | nil => simp at hpat
    | cons a as => simp
  · rw [Nat.add_zero, hpat]
    cases hS : S[i]? with
    | none => simp
    | some x =>
      have hmem : x ∈ S := by
        obtain ⟨hlen, rfl⟩ := List.getElem?_eq_some_iff.mp hS
        exact List.getElem_mem _
      simpa using h x hmem

theorem noPrefix_of_strong {pat A B : List Nat} (h : StrongNoOccur pat A)
    {i : Nat} (hi : i < A.length) :
    isPrefixOfSeq pat ((A ++ B).drop i) = false := by
  by_contra hcon
  rw [Bool.not_eq_false] at hcon
  obtain ⟨k, hk, hlt, hne⟩ := h i hi
  have := isPrefixOfSeq_getElem hcon (k := k) hk
  rw [List.getElem?_drop, List.getElem?_append_left hlt] at this
  exact hne this

theorem findSub_append_of_strong {pat A B : List Nat}
    (h : StrongNoOccur pat A) (hB : isPrefixOfSeq pat B = true) :
    findSub pat (A ++ B) = some A.length := by
  apply findSub_eq_some_of
  · rw [List.drop_left]
    exact hB
  · intro j hj
    exact noPrefix_of_strong h hj

/-! ### Digit, trim and UTF-16 lemmas -/

theorem digitsCp_mem {n c : Nat} (hc : c ∈ digitsCp n) :
    48 ≤ c ∧ c ≤ 57 := by
  rw [digitsCp, List.mem_map] at hc
  obtain ⟨d, hd, rfl⟩ := hc
  rw [List.mem_reverse] at hd
  have := Nat.digits_lt_base (by omega) hd
  omega

theorem foldl_reverse_ofDigits (ds : List Nat) (a : Nat) :
    List.foldl (fun acc d => acc * 10 + d) a ds.reverse =
      a * 10 ^ ds.length + Nat.ofDigits 10 ds := by
  induction ds generalizing a with
  | nil => simp
  | cons d ds ih =>
    rw [List.reverse_cons, List.foldl_append]
    simp only [List.foldl_cons, List.foldl_nil, ih, Nat.ofDigits_cons,
      List.length_cons]
    ring

theorem parse_digitsCp {bound n : Nat} (hn : n < bound) :
    (parseUNatCp bound (digitsCp n)).getD 0 = n := by
  by_cases h0 : n = 0
  · subst h0
    simp [digitsCp, parseUNatCp]
  · have hne : digitsCp n ≠ [] := by
      simp [digitsCp, Nat.digits_ne_nil_iff_ne_zero, h0]
    have hhead : (digitsCp n).head? ≠ some 43 := by
      cases hd : digitsCp n with
      | nil => simp
      | cons c cs =>
        have hc : c ∈ digitsCp n := by rw [hd]; exact List.mem_cons_self _ _
        have := digitsCp_mem hc
        simp only [List.head?_cons, ne_eq, Option.some.injEq]
        omega
    have hall : (digitsCp n).all (fun c => 48 ≤ c && c ≤ 57) = true := by
      rw [List.all_eq_true]
      intro c hc
      have := digitsCp_mem hc
      simp only [Bool.and_eq_true, decide_eq_true_eq]
      omega
    have hfold : (digitsCp n).foldl (fun acc c => acc * 10 + (c - 48)) 0 = n := by
      rw [digitsCp, List.foldl_map]
      simp only [Nat.add_sub_cancel_left]
      rw [foldl_reverse_ofDigits, Nat.ofDigits_digits]
      simp
    rw [parseUNatCp]
    simp only [if_neg hhead, if_neg hne, hall, if_true, hfold, hn, if_pos]
    rfl

theorem dropWhile_eq_self_of {α : Type} {p : α → Bool} {l : List α}
    (h : ∀ c ∈ l, p c = false) : l.dropWhile p = l := by
  cases l with
  | nil => rfl
  | cons a as =>
    rw [List.dropWhile_cons, h a (List.mem_cons_self _ _)]
    simp

theorem trimCp_eq_self {s : List Nat} (h : ∀ c ∈ s, isWsCp c = false) :
    trimCp s = s := by
  rw [trimCp, dropWhile_eq_self_of h, dropWhile_eq_self_of, List.reverse_reverse]
  intro c hc
  exact h c (List.mem_reverse.mp hc)

theorem trimCp_digitsCp (n : Nat) : trimCp (digitsCp n) = digitsCp n := by
  apply trimCp_eq_self
  intro c hc
  have := digitsCp_mem hc
  simp only [isWsCp, Bool.or_eq_false_iff, decide_eq_false_iff_not]
  omega

theorem popTrailingZeros_eq_self {s : List Nat} (h : ∀ c ∈ s, c ≠ 0) :
    popTrailingZeros s = s := by
  rw [popTrailingZeros, dropWhile_eq_self_of, List.reverse_reverse]
  intro c hc
  simpa using h c (List.mem_reverse.mp hc)

theorem pairsLE_encode {cps : List Nat} (h : ∀ u ∈ cps, u < 65536) :
    pairsLE (encodeUtf16le cps) = cps := by
  induction cps with
  | nil => rfl
  | cons u rest ih =>
    have hu := h u (List.mem_cons_self _ _)
    rw [encodeUtf16le] at ih ⊢
    simp only [List.map_cons, List.flatten_cons]
    rw [List.cons_append, List.cons_append, List.nil_append, pairsLE]
    rw [ih (fun v hv => h v (List.mem_cons_of_mem _ hv))]
    congr 1
    omega

theorem utf16Chars_bmp : ∀ {s : List Nat}, (∀ c ∈ s, c < 0xD800) →
    utf16Chars s = .ok s
  | [], _ => rfl
  | [u], h => by
    have hu : u < 0xD800 := h u (List.mem_cons_self _ _)
    rw [utf16Chars, if_pos (by simp [hu])]
  | u :: v :: rest, h => by
    have hu : u < 0xD800 := h u (List.mem_cons_self _ _)
    rw [utf16Chars, if_pos (by simp [hu]),
      utf16Chars_bmp (fun c hc => h c (List.mem_cons_of_mem _ hc))]
    rfl

theorem decode_utf16le_mkBlob {cps : List Nat}
    (h : ∀ c ∈ cps, 0 < c ∧ c < 0xD800) :
    decode_utf16le ([0xFF, 0xFE] ++ encodeUtf16le cps) = .ok cps := by
  have hdata : ([0xFF, 0xFE] ++ encodeUtf16le cps : List Nat) =
      0xFF :: 0xFE :: encodeUtf16le cps := by simp
  rw [hdata, decode_utf16le]
  show utf16Chars (popTrailingZeros (pairsLE (encodeUtf16le cps))) = .ok cps
  rw [pairsLE_encode (fun u hu => by have := h u hu; omega),
    popTrailingZeros_eq_self (fun c hc => by have := h c hc; omega),
    utf16Chars_bmp (fun c hc => (h c hc).2)]

/-! ### Header slicing: parsing a well-formed assembled file -/

theorem encodeUtf16le_length (cps : List Nat) :
    (encodeUtf16le cps).length = 2 * cps.length := by
  induction cps with
  | nil => rfl
  | cons u rest ih =>
    rw [encodeUtf16le] at ih ⊢
    simp only [List.map_cons, List.flatten_cons, List.length_append,
      List.length_cons, List.length_nil, ih, List.length_map]
    omega

theorem leU64_le64Bytes {n : Nat} (h : n < 256 ^ 8) :
    leU64 (le64Bytes n) = n := by
  rw [leU64, le64Bytes]
  simp only [List.foldr_cons, List.foldr_nil]
  omega

/-- Parsing a file assembled as 208-byte header (magic, XML offset 208, XML
size `B.length`) followed by the XML blob `B`. -/
theorem parse_wim_xml_metadata_assembled {A B : List Nat}
    (hA208 : A.length = 208)
    (hA8 : A.take 8 = wimMagic)
    (hO : (A.drop 48).take 8 = le64Bytes 208)
    (hS : (A.drop 56).take 8 = le64Bytes B.length)
    (hBlen : 2 ≤ B.length) (hBbound : B.length ≤ 100000000) :
    parse_wim_xml_metadata (A ++ B) =
      match decode_utf16le B with
      | .error e => .error e
      | .ok xml_string => parse_wim_xml xml_string := by
  have hlen : (A ++ B).length = 208 + B.length := by
    rw [List.length_append, hA208]
  have htake : (A ++ B).take 208 = A := List.take_left' hA208
  have hdrop : (A ++ B).drop 208 = B := List.drop_left' hA208
  rw [parse_wim_xml_metadata]
  rw [if_neg (by omega)]
  simp only [htake, hA8, hO, hS,
    leU64_le64Bytes (show (208 : Nat) < 256 ^ 8 by norm_num),
    leU64_le64Bytes (show B.length < 256 ^ 8 by
      have h8 : (256 : Nat) ^ 8 = 18446744073709551616 := by norm_num
      omega)]
  rw [if_neg (by simp)]
  rw [if_neg (by
    simp only [Bool.or_eq_true, decide_eq_true_eq, not_or]
    omega)]
  rw [if_neg (by omega)]
  rw [hdrop, List.take_length]

/-- Parsing the `mkWimFile` assembly reduces to parsing the rendered XML. -/
theorem parse_wim_xml_metadata_mkWimFile {cps : List Nat}
    (hchars : ∀ c ∈ cps, 0 < c ∧ c < 0xD800)
    (hlen : cps.length ≤ 49999999) :
    parse_wim_xml_metadata (mkWimFile cps) = parse_wim_xml cps := by
  have hbl : ([0xFF, 0xFE] ++ encodeUtf16le cps : List Nat).length =
      2 + 2 * cps.length := by
    simp only [List.length_append, encodeUtf16le_length, List.length_cons,
      List.length_nil]
  have hfile : mkWimFile cps =
      (wimMagic ++ List.replicate 40 0 ++ le64Bytes 208 ++
        le64Bytes ([0xFF, 0xFE] ++ encodeUtf16le cps : List Nat).length ++
        List.replicate 144 0) ++ ([0xFF, 0xFE] ++ encodeUtf16le cps) := rfl
  rw [hfile]
  rw [parse_wim_xml_metadata_assembled]
  · rw [decode_utf16le_mkBlob hchars]
  · simp only [List.length_append, List.length_replicate,
      show wimMagic.length = 8 from rfl,
      show ∀ x : Nat, (le64Bytes x).length = 8 from fun _ => rfl]
  · rw [show (wimMagic ++ List.replicate 40 0 ++ le64Bytes 208 ++
        le64Bytes ([0xFF, 0xFE] ++ encodeUtf16le cps : List Nat).length ++
        List.replicate 144 0) =
        wimMagic ++ (List.replicate 40 0 ++ (le64Bytes 208 ++
          (le64Bytes ([0xFF, 0xFE] ++ encodeUtf16le cps : List Nat).length ++
          List.replicate 144 0))) from by simp [List.append_assoc]]
    exact List.take_left' (by simp [wimMagic])
  · rw [show (wimMagic ++ List.replicate 40 0 ++ le64Bytes 208 ++
        le64Bytes ([0xFF, 0xFE] ++ encodeUtf16le cps : List Nat).length ++
        List.replicate 144 0) =
        (wimMagic ++ List.replicate 40 0) ++ (le64Bytes 208 ++
          (le64Bytes ([0xFF, 0xFE] ++ encodeUtf16le cps : List Nat).length ++
          List.replicate 144 0)) from by simp [List.append_assoc]]
    rw [List.drop_left' (by simp [wimMagic])]
    exact List.take_left' (by simp [le64Bytes])
  · rw [show (wimMagic ++ List.replicate 40 0 ++ le64Bytes 208 ++
        le64Bytes ([0xFF, 0xFE] ++ encodeUtf16le cps : List Nat).length ++
        List.replicate 144 0) =
        (wimMagic ++ List.replicate 40 0 ++ le64Bytes 208) ++
          (le64Bytes ([0xFF, 0xFE] ++ encodeUtf16le cps : List Nat).length ++
          List.replicate 144 0) from by simp [List.append_assoc]]
    rw [List.drop_left' (by simp [wimMagic, le64Bytes])]
    exact List.take_left' (by simp [le64Bytes])
  · omega
  · omega

theorem take_append_plus {α : Type} (l₁ l₂ : List α) (i : Nat) :
    (l₁ ++ l₂).take (l₁.length + i) = l₁ ++ l₂.take i := by
  induction l₁ with
  | nil => simp
  | cons a as ih =>
    simp only [List.cons_append, List.length_cons]
    rw [show as.length + 1 + i = (as.length + i) + 1 from by omega,
      List.take_succ_cons, ih]

theorem drop_append_plus {α : Type} (l₁ l₂ : List α) (i : Nat) :
    (l₁ ++ l₂).drop (l₁.length + i) = l₂.drop i := by
  rw [← List.drop_drop, List.drop_left]

/-- `extract_xml_tag` on a block split as
`P ++ <tag> ++ C ++ </tag> ++ Q` with no earlier occurrences. -/
theorem extract_xml_tag_eq {block tag openT closeT P C Q : List Nat}
    (hopen : [60] ++ tag ++ [62] = openT)
    (hclose : [60, 47] ++ tag ++ [62] = closeT)
    (hblock : block = P ++ openT ++ C ++ closeT ++ Q)
    (hP : StrongNoOccur openT P)
    (hC : StrongNoOccur closeT C)
    (htrim : trimCp C = C) :
    extract_xml_tag block tag = some C := by
  subst hblock
  rw [extract_xml_tag, hopen, hclose]
  have h1 : findSub openT (P ++ openT ++ C ++ closeT ++ Q) = some P.length := by
    rw [show P ++ openT ++ C ++ closeT ++ Q =
        P ++ (openT ++ (C ++ (closeT ++ Q))) from by simp [List.append_assoc]]
    exact findSub_append_of_strong hP (isPrefixOfSeq_append_self _ _)
  have h2 : (P ++ openT ++ C ++ closeT ++ Q).drop (P.length + openT.length) =
      C ++ (closeT ++ Q) := by
    rw [show P ++ openT ++ C ++ closeT ++ Q =
        (P ++ openT) ++ (C ++ (closeT ++ Q)) from by simp [List.append_assoc],
      show P.length + openT.length = (P ++ openT).length from
        (List.length_append _ _).symm,
      List.drop_left]
  have h3 : findSub closeT (C ++ (closeT ++ Q)) = some C.length :=
    findSub_append_of_strong hC (isPrefixOfSeq_append_self _ _)
  simp only [h1, h2, h3, List.take_left, htrim]

/-- One iteration of the scan loop consumes one rendered `<IMAGE>` element
and appends it to the accumulator exactly when its index is positive and its
name nonempty. -/
theorem parse_loop_step (e : WimImageInfo) (R : List Nat)
    (acc : List WimImageInfo) (fuel : Nat) (hwf : WfWimEntry e) :
    parse_wim_xml_loop (fuel + 1) (renderEntry e ++ R) acc =
      parse_wim_xml_loop fuel R
        (if 0 < e.index ∧ e.name ≠ [] then acc ++ [e] else acc) := by
  obtain ⟨hidx, hsize, hnameAll, htypeAll, htrimN, htrimT⟩ := hwf
  have hD60 : ∀ x ∈ digitsCp e.index, x ≠ 60 := fun x hx => by
    have := digitsCp_mem hx; omega
  have hD34 : ∀ x ∈ digitsCp e.index, x ≠ 34 := fun x hx => by
    have := digitsCp_mem hx; omega
  have hS60 : ∀ x ∈ digitsCp e.size_bytes, x ≠ 60 := fun x hx => by
    have := digitsCp_mem hx; omega
  have hN60 : ∀ x ∈ e.name, x ≠ 60 := by
    intro x hx
    have := List.all_eq_true.mp hnameAll x hx
    simp only [safeCp, Bool.and_eq_true, decide_eq_true_eq] at this
    exact this.1.1.1
  have hT60 : ∀ x ∈ e.installation_type, x ≠ 60 := by
    intro x hx
    have := List.all_eq_true.mp htypeAll x hx
    simp only [safeCp, Bool.and_eq_true, decide_eq_true_eq] at this
    exact this.1.1.1
  have hfind0 : findSub imgOpenPat (renderEntry e ++ R) = some 0 := by
    apply findSub_of_prefix
    rw [show renderEntry e ++ R = imgOpenPat ++ (digitsCp e.index ++ (cpOf "\">" ++ (cpOf "<DISPLAYNAME>" ++ (e.name ++ (cpOf "</DISPLAYNAME>" ++ (cpOf "<TOTALBYTES>" ++ (digitsCp e.size_bytes ++ (cpOf "</TOTALBYTES>" ++ (cpOf "<INSTALLATIONTYPE>" ++ (e.installation_type ++ (cpOf "</INSTALLATIONTYPE>" ++ (cpOf "</IMAGE>" ++ (R))))))))))))) from by
      simp [renderEntry, imgOpenPat, List.append_assoc]]
    exact isPrefixOfSeq_append_self _ _
  have hdrop14 : (renderEntry e ++ R).drop 14 = digitsCp e.index ++ (cpOf "\">" ++ (cpOf "<DISPLAYNAME>" ++ (e.name ++ (cpOf "</DISPLAYNAME>" ++ (cpOf "<TOTALBYTES>" ++ (digitsCp e.size_bytes ++ (cpOf "</TOTALBYTES>" ++ (cpOf "<INSTALLATIONTYPE>" ++ (e.installation_type ++ (cpOf "</INSTALLATIONTYPE>" ++ (cpOf "</IMAGE>" ++ (R)))))))))))) := by
    rw [show renderEntry e ++ R = (cpOf "<IMAGE INDEX=\"") ++ (digitsCp e.index ++ (cpOf "\">" ++ (cpOf "<DISPLAYNAME>" ++ (e.name ++ (cpOf "</DISPLAYNAME>" ++ (cpOf "<TOTALBYTES>" ++ (digitsCp e.size_bytes ++ (cpOf "</TOTALBYTES>" ++ (cpOf "<INSTALLATIONTYPE>" ++ (e.installation_type ++ (cpOf "</INSTALLATIONTYPE>" ++ (cpOf "</IMAGE>" ++ (R))))))))))))) from by
      simp [renderEntry, List.append_assoc]]
    exact List.drop_left' (by decide)
  have hfindQ : findSub [34] (digitsCp e.index ++ (cpOf "\">" ++ (cpOf "<DISPLAYNAME>" ++ (e.name ++ (cpOf "</DISPLAYNAME>" ++ (cpOf "<TOTALBYTES>" ++ (digitsCp e.size_bytes ++ (cpOf "</TOTALBYTES>" ++ (cpOf "<INSTALLATIONTYPE>" ++ (e.installation_type ++ (cpOf "</INSTALLATIONTYPE>" ++ (cpOf "</IMAGE>" ++ (R))))))))))))) = some (digitsCp e.index).length := by
    apply findSub_append_of_strong (StrongNoOccur.of_head_ne (by decide) hD34)
    rw [show (cpOf "\">" ++ (cpOf "<DISPLAYNAME>" ++ (e.name ++ (cpOf "</DISPLAYNAME>" ++ (cpOf "<TOTALBYTES>" ++ (digitsCp e.size_bytes ++ (cpOf "</TOTALBYTES>" ++ (cpOf "<INSTALLATIONTYPE>" ++ (e.installation_type ++ (cpOf "</INSTALLATIONTYPE>" ++ (cpOf "</IMAGE>" ++ (R)))))))))))) = cpOf "\">" ++ (cpOf "<DISPLAYNAME>" ++ (e.name ++ (cpOf "</DISPLAYNAME>" ++ (cpOf "<TOTALBYTES>" ++ (digitsCp e.size_bytes ++ (cpOf "</TOTALBYTES>" ++ (cpOf "<INSTALLATIONTYPE>" ++ (e.installation_type ++ (cpOf "</INSTALLATIONTYPE>" ++ (cpOf "</IMAGE>" ++ (R))))))))))) from by
      simp [List.append_assoc]]
    rw [show cpOf "\">" = [34, 62] from by decide]
    rw [show ([34, 62] : List Nat) ++ (cpOf "<DISPLAYNAME>" ++ (e.name ++ (cpOf "</DISPLAYNAME>" ++ (cpOf "<TOTALBYTES>" ++ (digitsCp e.size_bytes ++ (cpOf "</TOTALBYTES>" ++ (cpOf "<INSTALLATIONTYPE>" ++ (e.installation_type ++ (cpOf "</INSTALLATIONTYPE>" ++ (cpOf "</IMAGE>" ++ (R))))))))))) =
      34 :: 62 :: (cpOf "<DISPLAYNAME>" ++ (e.name ++ (cpOf "</DISPLAYNAME>" ++ (cpOf "<TOTALBYTES>" ++ (digitsCp e.size_bytes ++ (cpOf "</TOTALBYTES>" ++ (cpOf "<INSTALLATIONTYPE>" ++ (e.installation_type ++ (cpOf "</INSTALLATIONTYPE>" ++ (cpOf "</IMAGE>" ++ (R))))))))))) from by simp]
    simp [isPrefixOfSeq]
  have htakeD : (digitsCp e.index ++ (cpOf "\">" ++ (cpOf "<DISPLAYNAME>" ++ (e.name ++ (cpOf "</DISPLAYNAME>" ++ (cpOf "<TOTALBYTES>" ++ (digitsCp e.size_bytes ++ (cpOf "</TOTALBYTES>" ++ (cpOf "<INSTALLATIONTYPE>" ++ (e.installation_type ++ (cpOf "</INSTALLATIONTYPE>" ++ (cpOf "</IMAGE>" ++ (R))))))))))))).take (digitsCp e.index).length = digitsCp e.index :=
    List.take_left _ _
  have hstrongClose : StrongNoOccur imgClosePat (cpOf "<IMAGE INDEX=\"" ++ digitsCp e.index ++ cpOf "\">" ++ cpOf "<DISPLAYNAME>" ++ e.name ++ cpOf "</DISPLAYNAME>" ++ cpOf "<TOTALBYTES>" ++ digitsCp e.size_bytes ++ cpOf "</TOTALBYTES>" ++ cpOf "<INSTALLATIONTYPE>" ++ e.installation_type ++ cpOf "</INSTALLATIONTYPE>") :=
    (StrongNoOccur.append (StrongNoOccur.append (StrongNoOccur.append (StrongNoOccur.append (StrongNoOccur.append (StrongNoOccur.append (StrongNoOccur.append (StrongNoOccur.append (StrongNoOccur.append (StrongNoOccur.append (StrongNoOccur.append (strongNoOccur_of_B (by decide)) (StrongNoOccur.of_head_ne (by decide) hD60)) (strongNoOccur_of_B (by decide))) (strongNoOccur_of_B (by decide))) (StrongNoOccur.of_head_ne (by decide) hN60)) (strongNoOccur_of_B (by decide))) (strongNoOccur_of_B (by decide))) (StrongNoOccur.of_head_ne (by decide) hS60)) (strongNoOccur_of_B (by decide))) (strongNoOccur_of_B (by decide))) (StrongNoOccur.of_head_ne (by decide) hT60)) (strongNoOccur_of_B (by decide)))
  have hfindClose : findSub imgClosePat (renderEntry e ++ R) =
      some (cpOf "<IMAGE INDEX=\"" ++ digitsCp e.index ++ cpOf "\">" ++ cpOf "<DISPLAYNAME>" ++ e.name ++ cpOf "</DISPLAYNAME>" ++ cpOf "<TOTALBYTES>" ++ digitsCp e.size_bytes ++ cpOf "</TOTALBYTES>" ++ cpOf "<INSTALLATIONTYPE>" ++ e.installation_type ++ cpOf "</INSTALLATIONTYPE>").length := by
    rw [show renderEntry e ++ R = (cpOf "<IMAGE INDEX=\"" ++ digitsCp e.index ++ cpOf "\">" ++ cpOf "<DISPLAYNAME>" ++ e.name ++ cpOf "</DISPLAYNAME>" ++ cpOf "<TOTALBYTES>" ++ digitsCp e.size_bytes ++ cpOf "</TOTALBYTES>" ++ cpOf "<INSTALLATIONTYPE>" ++ e.installation_type ++ cpOf "</INSTALLATIONTYPE>") ++ (imgClosePat ++ R) from by
      simp [renderEntry, imgClosePat, List.append_assoc]]
    exact findSub_append_of_strong hstrongClose (isPrefixOfSeq_append_self _ _)
  have htakeBlock : (renderEntry e ++ R).take ((cpOf "<IMAGE INDEX=\"" ++ digitsCp e.index ++ cpOf "\">" ++ cpOf "<DISPLAYNAME>" ++ e.name ++ cpOf "</DISPLAYNAME>" ++ cpOf "<TOTALBYTES>" ++ digitsCp e.size_bytes ++ cpOf "</TOTALBYTES>" ++ cpOf "<INSTALLATIONTYPE>" ++ e.installation_type ++ cpOf "</INSTALLATIONTYPE>").length + 8) =
      renderEntry e := by
    rw [show renderEntry e ++ R = (cpOf "<IMAGE INDEX=\"" ++ digitsCp e.index ++ cpOf "\">" ++ cpOf "<DISPLAYNAME>" ++ e.name ++ cpOf "</DISPLAYNAME>" ++ cpOf "<TOTALBYTES>" ++ digitsCp e.size_bytes ++ cpOf "</TOTALBYTES>" ++ cpOf "<INSTALLATIONTYPE>" ++ e.installation_type ++ cpOf "</INSTALLATIONTYPE>") ++ (imgClosePat ++ R) from by
      simp [renderEntry, imgClosePat, List.append_assoc]]
    rw [take_append_plus]
    rw [show (imgClosePat ++ R).take 8 = imgClosePat from
      List.take_left' (by decide)]
    simp [renderEntry, imgClosePat, List.append_assoc]
  have hdropBlock : (renderEntry e ++ R).drop ((cpOf "<IMAGE INDEX=\"" ++ digitsCp e.index ++ cpOf "\">" ++ cpOf "<DISPLAYNAME>" ++ e.name ++ cpOf "</DISPLAYNAME>" ++ cpOf "<TOTALBYTES>" ++ digitsCp e.size_bytes ++ cpOf "</TOTALBYTES>" ++ cpOf "<INSTALLATIONTYPE>" ++ e.installation_type ++ cpOf "</INSTALLATIONTYPE>").length + 8) = R := by
    rw [show renderEntry e ++ R = (cpOf "<IMAGE INDEX=\"" ++ digitsCp e.index ++ cpOf "\">" ++ cpOf "<DISPLAYNAME>" ++ e.name ++ cpOf "</DISPLAYNAME>" ++ cpOf "<TOTALBYTES>" ++ digitsCp e.size_bytes ++ cpOf "</TOTALBYTES>" ++ cpOf "<INSTALLATIONTYPE>" ++ e.installation_type ++ cpOf "</INSTALLATIONTYPE>") ++ (imgClosePat ++ R) from by
      simp [renderEntry, imgClosePat, List.append_assoc]]
    rw [drop_append_plus]
    exact List.drop_left' (by decide)
  have hdisp : extract_xml_tag (renderEntry e) (cpOf "DISPLAYNAME") =
      some e.name := by
    apply extract_xml_tag_eq (by decide) (by decide)
      (show renderEntry e = (cpOf "<IMAGE INDEX=\"" ++ digitsCp e.index ++ cpOf "\">") ++ (cpOf "<DISPLAYNAME>") ++ e.name ++
        (cpOf "</DISPLAYNAME>") ++ (cpOf "<TOTALBYTES>" ++ digitsCp e.size_bytes ++ cpOf "</TOTALBYTES>" ++ cpOf "<INSTALLATIONTYPE>" ++ e.installation_type ++ cpOf "</INSTALLATIONTYPE>" ++ cpOf "</IMAGE>") from by
        simp [renderEntry, List.append_assoc])
      ((StrongNoOccur.append (StrongNoOccur.append (strongNoOccur_of_B (by decide)) (StrongNoOccur.of_head_ne (by decide) hD60)) (strongNoOccur_of_B (by decide))))
      (StrongNoOccur.of_head_ne (by decide) hN60) htrimN
  have htot : extract_xml_tag (renderEntry e) (cpOf "TOTALBYTES") =
      some (digitsCp e.size_bytes) := by
    apply extract_xml_tag_eq (by decide) (by decide)
      (show renderEntry e = (cpOf "<IMAGE INDEX=\"" ++ digitsCp e.index ++ cpOf "\">" ++ cpOf "<DISPLAYNAME>" ++ e.name ++ cpOf "</DISPLAYNAME>") ++ (cpOf "<TOTALBYTES>") ++
        digitsCp e.size_bytes ++ (cpOf "</TOTALBYTES>") ++ (cpOf "<INSTALLATIONTYPE>" ++ e.installation_type ++ cpOf "</INSTALLATIONTYPE>" ++ cpOf "</IMAGE>") from by
        simp [renderEntry, List.append_assoc])
      ((StrongNoOccur.append (StrongNoOccur.append (StrongNoOccur.append (StrongNoOccur.append (StrongNoOccur.append (strongNoOccur_of_B (by decide)) (StrongNoOccur.of_head_ne (by decide) hD60)) (strongNoOccur_of_B (by decide))) (strongNoOccur_of_B (by decide))) (StrongNoOccur.of_head_ne (by decide) hN60)) (strongNoOccur_of_B (by decide))))
      (StrongNoOccur.of_head_ne (by decide) hS60) (trimCp_digitsCp _)
  have hinst : extract_xml_tag (renderEntry e) (cpOf "INSTALLATIONTYPE") =
      some e.installation_type := by
    apply extract_xml_tag_eq (by decide) (by decide)
      (show renderEntry e = (cpOf "<IMAGE INDEX=\"" ++ digitsCp e.index ++ cpOf "\">" ++ cpOf "<DISPLAYNAME>" ++ e.name ++ cpOf "</DISPLAYNAME>" ++ cpOf "<TOTALBYTES>" ++ digitsCp e.size_bytes ++ cpOf "</TOTALBYTES>") ++
        (cpOf "<INSTALLATIONTYPE>") ++ e.installation_type ++ (cpOf "</INSTALLATIONTYPE>") ++ (cpOf "</IMAGE>") from by
        simp [renderEntry, List.append_assoc])
      ((StrongNoOccur.append (StrongNoOccur.append (StrongNoOccur.append (StrongNoOccur.append (StrongNoOccur.append (StrongNoOccur.append (StrongNoOccur.append (StrongNoOccur.append (strongNoOccur_of_B (by decide)) (StrongNoOccur.of_head_ne (by decide) hD60)) (strongNoOccur_of_B (by decide))) (strongNoOccur_of_B (by decide))) (StrongNoOccur.of_head_ne (by decide) hN60)) (strongNoOccur_of_B (by decide))) (strongNoOccur_of_B (by decide))) (StrongNoOccur.of_head_ne (by decide) hS60)) (strongNoOccur_of_B (by decide))))
      (StrongNoOccur.of_head_ne (by decide) hT60) htrimT
  have horelse : ((some e.name).orElse
      fun _ => extract_xml_tag (renderEntry e) (cpOf "NAME")) = some e.name := rfl
  rw [parse_wim_xml_loop]
  simp only [hfind0, List.drop_zero, hdrop14, hfindQ, htakeD, hfindClose,
    htakeBlock, hdropBlock, hdisp, htot, hinst, horelse,
    Option.some_bind, Option.getD_some, parseU32cp, parseU64cp,
    parse_digitsCp hidx, parse_digitsCp hsize]

/-- The scan loop stops on an empty string. -/
theorem parse_loop_nil_str (f : Nat) (acc : List WimImageInfo) :
    parse_wim_xml_loop (f + 1) [] acc = acc := by
  rw [parse_wim_xml_loop]
  simp [show findSub imgOpenPat ([] : List Nat) = none from by decide]

/-- Parser keep condition: positive index and non-empty name. -/
def keepImage (e : WimImageInfo) : Bool :=
  decide (0 < e.index) && decide (e.name ≠ [])

/-- Scanning a concatenation of rendered elements keeps exactly the entries
with positive index and non-empty name, in order. -/
theorem parse_loop_render (entries : List WimImageInfo) (R : List Nat)
    (acc : List WimImageInfo) (fuel : Nat)
    (hwf : ∀ e ∈ entries, WfWimEntry e) :
    parse_wim_xml_loop (entries.length + fuel) (renderXml entries ++ R) acc =
      parse_wim_xml_loop fuel R (acc ++ entries.filter keepImage) := by
  induction entries generalizing acc fuel with
  | nil => simp [renderXml]
  | cons e es ih =>
    rw [show (e :: es).length + fuel = es.length + fuel + 1 from by
      simp only [List.length_cons]; omega]
    rw [show renderXml (e :: es) ++ R = renderEntry e ++ (renderXml es ++ R)
      from by simp [renderXml, List.append_assoc]]
    rw [parse_loop_step e (renderXml es ++ R) acc (es.length + fuel)
      (hwf e (List.mem_cons_self e es))]
    rw [ih _ _ (fun x hx => hwf x (List.mem_cons_of_mem _ hx))]
    congr 1
    by_cases h : 0 < e.index ∧ e.name ≠ []
    · rw [if_pos h]
      rw [List.filter_cons, if_pos (by
        simp only [keepImage, Bool.and_eq_true, decide_eq_true_eq]; exact h)]
      simp [List.append_assoc]
    · rw [if_neg h]
      rw [List.filter_cons, if_neg (by
        simp only [keepImage, Bool.and_eq_true, decide_eq_true_eq]; exact h)]

theorem renderEntry_length_pos (e : WimImageInfo) :
    0 < (renderEntry e).length := by
  simp only [renderEntry, List.length_append]
  have : 0 < (cpOf "<IMAGE INDEX=\"").length := by decide
  omega

theorem length_le_renderXml (entries : List WimImageInfo) :
    entries.length ≤ (renderXml entries).length := by
  induction entries with
  | nil => simp [renderXml]
  | cons e es ih =>
    simp only [renderXml, List.map_cons, List.flatten_cons, List.length_append,
      List.length_cons] at *
    have := renderEntry_length_pos e
    omega

/-- Every code point of a rendered element is positive and in the BMP. -/
theorem renderEntry_chars {e : WimImageInfo} (hwf : WfWimEntry e) :
    ∀ c ∈ renderEntry e, 0 < c ∧ c < 0xD800 := by
  obtain ⟨-, -, hname, htype, -, -⟩ := hwf
  intro c hc
  have hlit : ∀ s : List Nat,
      (s.all fun x => decide (0 < x) && decide (x < 0xD800)) = true →
      c ∈ s → 0 < c ∧ c < 0xD800 := by
    intro s hs hcs
    have := List.all_eq_true.mp hs c hcs
    simpa using this
  simp only [renderEntry, List.mem_append] at hc
  rcases hc with ((((((((((((h | h) | h) | h) | h) | h) | h) | h) | h) | h)
      | h) | h) | h)
  · exact hlit _ (by decide) h
  · have := digitsCp_mem h; omega
  · exact hlit _ (by decide) h
  · exact hlit _ (by decide) h
  · have := List.all_eq_true.mp hname c h
    simp only [safeCp, Bool.and_eq_true, decide_eq_true_eq] at this
    omega
  · exact hlit _ (by decide) h
  · exact hlit _ (by decide) h
  · have := digitsCp_mem h; omega
  · exact hlit _ (by decide) h
  · exact hlit _ (by decide) h
  · have := List.all_eq_true.mp htype c h
    simp only [safeCp, Bool.and_eq_true, decide_eq_true_eq] at this
    omega
  · exact hlit _ (by decide) h
  · exact hlit _ (by decide) h

theorem renderXml_chars {entries : List WimImageInfo}
    (hwf : ∀ e ∈ entries, WfWimEntry e) :
    ∀ c ∈ renderXml entries, 0 < c ∧ c < 0xD800 := by
  intro c hc
  simp only [renderXml, List.mem_flatten, List.mem_map] at hc
  obtain ⟨l, ⟨e, he, rfl⟩, hcl⟩ := hc
  exact renderEntry_chars (hwf e he) c hcl

/-- `parse_wim_xml` on a rendered directory yields the kept entries, or the
no-valid-image error when none qualifies. -/
theorem parse_wim_xml_render (entries : List WimImageInfo)
    (hwf : ∀ e ∈ entries, WfWimEntry e) :
    parse_wim_xml (renderXml entries) =
      (if entries.filter keepImage = [] then
        Except.error "未找到有效的镜像信息"
      else .ok (entries.filter keepImage)) := by
  unfold parse_wim_xml
  rw [show (renderXml entries).length + 1 =
      entries.length + (((renderXml entries).length - entries.length) + 1)
    from by have := length_le_renderXml entries; omega]
  rw [show renderXml entries = renderXml entries ++ [] from
    (List.append_nil _).symm]
  rw [parse_loop_render entries [] [] _ hwf]
  rw [parse_loop_nil_str, List.nil_append]

/-- Witness entries for the WIM metadata round trip: one installable image,
one with index 0, one with an empty display name. -/
def wimA : WimImageInfo := ⟨1, cpOf "Windows 11 Pro", 5, cpOf "Client"⟩

def wimB : WimImageInfo := ⟨0, cpOf "Bad", 1, cpOf "Client"⟩

def wimC : WimImageInfo := ⟨3, [], 7, cpOf "WindowsPE"⟩

/-- C7: `parse_wim_xml_metadata` returns an error for every file whose first
8 bytes are not the `MSWIM\0\0\0` magic; when the header points at a
BOM-prefixed UTF-16LE XML directory assembled from `<IMAGE INDEX="n">`
elements, it returns exactly the elements with positive index and non-empty
display name, with name, `TOTALBYTES` size and `INSTALLATIONTYPE` extracted,
and the no-valid-image error when none qualifies. -/
theorem wim_metadata_magic_and_roundtrip :
    (∀ file : List Nat, file.take 8 ≠ wimMagic →
      (parse_wim_xml_metadata file).isOk = false) ∧
    (∀ entries : List WimImageInfo, (∀ e ∈ entries, WfWimEntry e) →
      (renderXml entries).length ≤ 49999999 →
      parse_wim_xml_metadata (mkWimFile (renderXml entries)) =
        (if entries.filter keepImage = [] then
          Except.error "未找到有效的镜像信息"
        else .ok (entries.filter keepImage))) := by
  constructor
  · intro file hmagic
    simp only [parse_wim_xml_metadata]
    by_cases hlen : file.length < 208
    · rw [if_pos hlen]
      rfl
    · rw [if_neg hlen]
      have h8 : (file.take 208).take 8 = file.take 8 := by
        rw [List.take_take, show min 8 208 = 8 from by decide]
      rw [h8, if_pos hmagic]
      rfl
  · intro entries hwf hlen
    rw [parse_wim_xml_metadata_mkWimFile (renderXml_chars hwf) hlen]
    exact parse_wim_xml_render entries hwf

set_option maxRecDepth 10000 in
/-- Concrete instantiation of the C7 theorem: a garbage header is rejected,
and a 3-image directory keeps only the entry with positive index and
non-empty name. -/
theorem wim_metadata_magic_and_roundtrip_witness :
    (parse_wim_xml_metadata [1, 2, 3]).isOk = false ∧
    parse_wim_xml_metadata (mkWimFile (renderXml [wimA, wimB, wimC])) =
      .ok [wimA] := by
  have d0 : digitsCp 0 = [] := by simp [digitsCp]
  have d1 : digitsCp 1 = [49] := by norm_num [digitsCp, Nat.digits_def']
  have d3 : digitsCp 3 = [51] := by norm_num [digitsCp, Nat.digits_def']
  have d5 : digitsCp 5 = [53] := by norm_num [digitsCp, Nat.digits_def']
  have d7 : digitsCp 7 = [55] := by norm_num [digitsCp, Nat.digits_def']
  have hlen : (renderXml [wimA, wimB, wimC]).length ≤ 49999999 := by
    simp only [renderXml, renderEntry, wimA, wimB, wimC, d0, d1, d3, d5, d7,
      List.map_cons, List.map_nil, List.flatten_cons, List.flatten_nil]
    decide
  constructor
  · exact wim_metadata_magic_and_roundtrip.1 [1, 2, 3] (by decide)
  · exact (wim_metadata_magic_and_roundtrip.2 [wimA, wimB, wimC]
      (by decide) hlen).trans (by decide)

end LetRecovery
